import Mathlib

/-!
Verification of the koddi-healthcheck orchestrator and response classifiers.

The development shallowly embeds the two Python front ends of the repository:
`koddi_healthcheck.py` (CLI, namespace `KH`) and `app.py` (Streamlit web UI,
namespace `App`).  Parsed JSON response bodies are modelled by the `Json`
inductive; the dynamic `dict.get` / `len` / truthiness / slicing operations of
Python are modelled by `Except`-valued helpers that raise (return `.error`)
exactly where Python would raise, so that the per-check `try/except` blocks can
be embedded faithfully.  The outbound HTTP transport is modelled by an oracle
`Nat → HttpOutcome` giving the outcome of each successive HTTP call of a run,
and each run records the `Request`s it issued, so that "no HTTP call is made
for a skipped check" is expressible.
-/

set_option autoImplicit false

/-- Model of a parsed JSON value (the result of `resp.json()` in the source). -/
inductive Json where
  | null
  | bool (b : Bool)
  | num (n : Int)
  | str (s : String)
  | arr (elems : List Json)
  | obj (fields : List (String × Json))

namespace Json

/-- Python truthiness of a JSON value (`if x:`): `None`, `False`, `0`, `""`,
`[]` and `{}` are falsy, everything else truthy. -/
def pyTruthy : Json → Bool
  | .null => false
  | .bool b => b
  | .num n => n != 0
  | .str s => s != ""
  | .arr xs => !xs.isEmpty
  | .obj kvs => !kvs.isEmpty

/-- Python equality of a JSON value with an integer literal (`x == 0`):
true for the same number, and for booleans via `True == 1`, `False == 0`. -/
def pyEqInt : Json → Int → Bool
  | .num n, m => n == m
  | .bool b, m => (if b then (1 : Int) else 0) == m
  | _, _ => false

/-- Python `len(x)`: defined for strings, lists and dicts; raises `TypeError`
otherwise. -/
def pyLen : Json → Except String Int
  | .str s => .ok s.length
  | .arr xs => .ok xs.length
  | .obj kvs => .ok kvs.length
  | _ => .error "object has no len"

/-- Python `repr(x)` of a JSON value (strings quoted, `None`/`True`/`False`
capitalised, containers rendered recursively). -/
def pyRepr : Json → String
  | .null => "None"
  | .bool b => if b then "True" else "False"
  | .num n => toString n
  | .str s => "\x27" ++ s ++ "\x27"
  | .arr xs =>
      "[" ++ String.intercalate ", " (xs.attach.map (fun x => pyRepr x.1)) ++ "]"
  | .obj kvs =>
      "\x7b" ++
        String.intercalate ", "
          (kvs.attach.map (fun kv => "\x27" ++ kv.1.1 ++ "\x27: " ++ pyRepr kv.1.2)) ++
      "\x7d"
decreasing_by
  · have := List.sizeOf_lt_of_mem x.2
    simp only [Json.arr.sizeOf_spec]
    omega
  · have h1 := List.sizeOf_lt_of_mem kv.2
    have h2 : sizeOf kv.1.2 < sizeOf kv.1 := by
      cases kv.1
      simp
    simp only [Json.obj.sizeOf_spec]
    omega

/-- Python `str(x)` of a JSON value, as used by f-string interpolation:
a string renders without quotes, scalars as `None`/`True`/`False`/digits, and
containers as their repr. -/
def pyStr : Json → String
  | .str s => s
  | .null => "None"
  | .bool b => if b then "True" else "False"
  | .num n => toString n
  | j => pyRepr j

end Json

/-- Python `x.get(k)` (no default): returns the value, `none` if the key is
absent, and raises (`AttributeError`) when `x` is not a dict. -/
def pyDictGet : Json → String → Except String (Option Json)
  | .obj kvs, k => .ok (kvs.lookup k)
  | _, _ => .error "object has no attribute get"

/-- Python `x.get(k, default)`: the value if the key is present, otherwise the
default; raises when `x` is not a dict. -/
def pyDictGetD (j : Json) (k : String) (d : Json) : Except String Json :=
  match j with
  | .obj kvs => .ok ((kvs.lookup k).getD d)
  | _ => .error "object has no attribute get"

/-- Python iteration `for c in x:` collected to a list; raises (`TypeError`)
when `x` is not a JSON array.  (Python would also iterate strings and dicts;
no check feeds those shapes meaningful data, and the classifiers below only
ever reach this after list-typed defaults.) -/
def pyIter : Json → Except String (List Json)
  | .arr xs => .ok xs
  | _ => .error "object is not iterable"

/-- Python slicing `x[:n]`; raises when `x` is not a list. -/
def pySlice (j : Json) (n : Nat) : Except String (List Json) :=
  match j with
  | .arr xs => .ok (xs.take n)
  | _ => .error "object is not subscriptable"

/-- Python `value == "success"` for an optional JSON value as returned by
`dict.get`: true exactly when the value is the given string. -/
def pyEqStr : Option Json → String → Bool
  | some (.str s), t => s == t
  | _, _ => false

/-- Python `base_url.rstrip("/")`: strip all trailing slashes. -/
def pyRstripSlash (s : String) : String :=
  s.dropRightWhile (· == '/')

/-- Status of a check result (`class Status(Enum)` in both source files). -/
inductive Status where
  | PASS
  | WARN
  | FAIL
  | SKIPPED
deriving DecidableEq, Repr

/-- One check's result (`@dataclass CheckResult` in both source files).
The source's `extra : dict` field is never assigned by any check or
orchestrator path and is omitted. -/
structure CheckResult where
  number : Nat
  name : String
  status : Status
  details : String
deriving DecidableEq, Repr

/-- An HTTP response as seen by a check: the status code, and the result of
`resp.json()` (`.error` when the body is not valid JSON, in which case Python
raises inside the check's `try` block). -/
structure Response where
  status_code : Nat
  jsonBody : Except String Json

/-- Outcome of one outbound HTTP call: a response, or one of the transport
exceptions the checks catch (`httpx.TimeoutException`, `httpx.ConnectError`,
or any other exception with its message). -/
inductive HttpOutcome where
  | ok (resp : Response)
  | timeout
  | connectError
  | exn (msg : String)

/-- An outbound HTTP request as issued by `make_request`: method, URL, the
`Authorization` header (set exactly when a truthy token was passed), and the
JSON body. -/
structure Request where
  method : String
  url : String
  token : Option Json
  body : Option Json

/-- Model of `make_request`: builds the request; the `Authorization` header is
set only when the passed token is truthy (`if token:` in the source). -/
def make_request (method url : String) (token : Option Json) (json_body : Option Json) :
    Request :=
  { method := method
    url := url
    token := match token with
      | some t => if t.pyTruthy then some t else none
      | none => none
    body := json_body }

/-- Configuration of one run, as collected by either front end (the CLI
options of `main`, or the Streamlit sidebar feeding `run_checks`).  The
`timeout` and output-format options only affect the transport and the
rendering, not the orchestration, and are not modelled. -/
structure RunConfig where
  email : String
  password : String
  member_group_id : Int
  advertiser_id : Int
  client_name : String
  site_id : String
  experience_name : Option String
  base_url : String

namespace KH

/-- Check 1 (`check_auth` in `koddi_healthcheck.py`): classification of the
login response, returning the `CheckResult` and the optional session token. -/
def check_auth_body (resp : Response) : Except String (CheckResult × Option Json) := do
  let data ← resp.jsonBody
  let st ← pyDictGet data "status"
  if pyEqStr st "success" then
    let result ← pyDictGetD data "result" (Json.obj [])
    let tokenObj ← pyDictGetD result "token" (Json.obj [])
    let token ← pyDictGet tokenObj "id_token"
    match token with
    | some t =>
      if t.pyTruthy then
        return (⟨1, "Authentication", Status.PASS, "Authenticated successfully"⟩, some t)
      else
        return (⟨1, "Authentication", Status.FAIL, "No id_token in response"⟩, none)
    | none => return (⟨1, "Authentication", Status.FAIL, "No id_token in response"⟩, none)
  else
    let error_code ← pyDictGetD data "error_code" (Json.str "unknown")
    let fallback ← pyDictGetD data "error" (Json.str "unknown error")
    let error_msg ← pyDictGetD data "message" fallback
    return (⟨1, "Authentication", Status.FAIL,
      "Login failed — code " ++ error_code.pyStr ++ ": " ++ error_msg.pyStr⟩, none)

/-- Check 1 including the `try/except` arms of `check_auth`. -/
def check_auth (o : HttpOutcome) : CheckResult × Option Json :=
  match o with
  | .timeout => (⟨1, "Authentication", Status.FAIL, "Request timed out"⟩, none)
  | .connectError =>
      (⟨1, "Authentication", Status.FAIL, "Connection error — cannot reach API"⟩, none)
  | .exn m => (⟨1, "Authentication", Status.FAIL, "Unexpected error: " ++ m⟩, none)
  | .ok resp =>
    match check_auth_body resp with
    | .ok r => r
    | .error m => (⟨1, "Authentication", Status.FAIL, "Unexpected error: " ++ m⟩, none)

/-- Check 2 (`check_advertiser`): classification of the advertiser lookup
response. -/
def check_advertiser_body (resp : Response) : Except String CheckResult := do
  let data ← resp.jsonBody
  let st ← pyDictGet data "status"
  if pyEqStr st "success" then
    let result ← pyDictGetD data "result" (Json.obj [])
    let adv_name ← pyDictGetD result "name" (Json.str "N/A")
    let adv_status ← pyDictGetD result "status" (Json.str "N/A")
    let entity_count ← pyDictGetD result "entity_count" (Json.str "N/A")
    let currency ← pyDictGetD result "currency_code" (Json.str "N/A")
    return ⟨2, "Advertiser Exists", Status.PASS,
      "Found: " ++ adv_name.pyStr ++ " | status=" ++ adv_status.pyStr ++
      " | entities=" ++ entity_count.pyStr ++ " | currency=" ++ currency.pyStr⟩
  else
    let error_code ← pyDictGetD data "error_code" (Json.str "unknown")
    let fallback ← pyDictGetD data "error" (Json.str "unknown error")
    let error_msg ← pyDictGetD data "message" fallback
    return ⟨2, "Advertiser Exists", Status.FAIL,
      "Error " ++ error_code.pyStr ++ ": " ++ error_msg.pyStr⟩

/-- Check 2 including the `try/except` arms of `check_advertiser`. -/
def check_advertiser (o : HttpOutcome) : CheckResult :=
  match o with
  | .timeout => ⟨2, "Advertiser Exists", Status.FAIL, "Request timed out"⟩
  | .connectError => ⟨2, "Advertiser Exists", Status.FAIL, "Connection error"⟩
  | .exn m => ⟨2, "Advertiser Exists", Status.FAIL, "Unexpected error: " ++ m⟩
  | .ok resp =>
    match check_advertiser_body resp with
    | .ok r => r
    | .error m => ⟨2, "Advertiser Exists", Status.FAIL, "Unexpected error: " ++ m⟩

/-- One line of the campaigns listing (the body of the `for c in campaigns`
loop of `check_campaigns`). -/
def campaign_line (c : Json) : Except String String := do
  let c_name ← pyDictGetD c "name" (Json.str "N/A")
  let c_status ← pyDictGetD c "status" (Json.str "N/A")
  let always_on ← pyDictGetD c "always_on" (Json.str "N/A")
  let budget_type ← pyDictGetD c "budget_type" (Json.str "N/A")
  let budget_amount ← pyDictGetD c "budget_amount" (Json.str "N/A")
  return "  • " ++ c_name.pyStr ++ " | status=" ++ c_status.pyStr ++
    " | always_on=" ++ always_on.pyStr ++ " | budget=" ++
    budget_type.pyStr ++ "/" ++ budget_amount.pyStr

/-- Check 3 (`check_campaigns`): classification of the campaigns-report
response.  Note that Python evaluates the default argument
`len(campaigns)` of `result.get("total", len(campaigns))` eagerly, before the
lookup, which the `pyLen` step mirrors. -/
def check_campaigns_body (resp : Response) : Except String CheckResult := do
  let data ← resp.jsonBody
  let st ← pyDictGet data "status"
  if pyEqStr st "success" then
    let result ← pyDictGetD data "result" (Json.obj [])
    let campaigns ← pyDictGetD result "campaigns" (Json.arr [])
    let default_total ← campaigns.pyLen
    let total ← pyDictGetD result "total" (Json.num default_total)
    if total.pyEqInt 0 then
      return ⟨3, "Campaigns Report", Status.WARN,
        "⚠️  Zero campaigns found for this advertiser"⟩
    else
      let cs ← pyIter campaigns
      let clines ← cs.mapM campaign_line
      return ⟨3, "Campaigns Report", Status.PASS,
        String.intercalate "\n"
          (("Found " ++ total.pyStr ++ " campaign(s)") :: clines)⟩
  else
    let error_code ← pyDictGetD data "error_code" (Json.str "unknown")
    let fallback ← pyDictGetD data "error" (Json.str "unknown error")
    let error_msg ← pyDictGetD data "message" fallback
    return ⟨3, "Campaigns Report", Status.FAIL,
      "Error " ++ error_code.pyStr ++ ": " ++ error_msg.pyStr⟩

/-- Check 3 including the `try/except` arms of `check_campaigns`. -/
def check_campaigns (o : HttpOutcome) : CheckResult :=
  match o with
  | .timeout => ⟨3, "Campaigns Report", Status.FAIL, "Request timed out"⟩
  | .connectError => ⟨3, "Campaigns Report", Status.FAIL, "Connection error"⟩
  | .exn m => ⟨3, "Campaigns Report", Status.FAIL, "Unexpected error: " ++ m⟩
  | .ok resp =>
    match check_campaigns_body resp with
    | .ok r => r
    | .error m => ⟨3, "Campaigns Report", Status.FAIL, "Unexpected error: " ++ m⟩

/-- One line of the registration-failure listing of `check_entity_failures`. -/
def failure_line (f : Json) : Except String String := do
  let err_msg ← pyDictGetD f "error_message" (Json.str "N/A")
  let err_code ← pyDictGetD f "error_code" (Json.str "N/A")
  return "  • [" ++ err_code.pyStr ++ "] " ++ err_msg.pyStr

/-- Check 4 (`check_entity_failures`): classification of the failed
entity-registrations report response. -/
def check_entity_failures_body (resp : Response) : Except String CheckResult := do
  let data ← resp.jsonBody
  let st ← pyDictGet data "status"
  if pyEqStr st "success" then
    let result ← pyDictGetD data "result" (Json.obj [])
    let total ← pyDictGetD result "total" (Json.num 0)
    if total.pyEqInt 0 then
      return ⟨4, "Entity Registration Failures", Status.PASS,
        "No entity registration failures"⟩
    else
      let regs ← pyDictGetD result "entity_registrations" (Json.arr [])
      let failures ← pySlice regs 5
      let flines ← failures.mapM failure_line
      return ⟨4, "Entity Registration Failures", Status.WARN,
        String.intercalate "\n"
          (("⚠️  " ++ total.pyStr ++ " registration failure(s) found. First " ++
            toString failures.length ++ ":") :: flines)⟩
  else
    let error_code ← pyDictGetD data "error_code" (Json.str "unknown")
    let fallback ← pyDictGetD data "error" (Json.str "unknown error")
    let error_msg ← pyDictGetD data "message" fallback
    return ⟨4, "Entity Registration Failures", Status.FAIL,
      "Error " ++ error_code.pyStr ++ ": " ++ error_msg.pyStr⟩

/-- Check 4 including the `try/except` arms of `check_entity_failures`. -/
def check_entity_failures (o : HttpOutcome) : CheckResult :=
  match o with
  | .timeout => ⟨4, "Entity Registration Failures", Status.FAIL, "Request timed out"⟩
  | .connectError => ⟨4, "Entity Registration Failures", Status.FAIL, "Connection error"⟩
  | .exn m => ⟨4, "Entity Registration Failures", Status.FAIL, "Unexpected error: " ++ m⟩
  | .ok resp =>
    match check_entity_failures_body resp with
    | .ok r => r
    | .error m =>
      ⟨4, "Entity Registration Failures", Status.FAIL, "Unexpected error: " ++ m⟩

/-- Check 5 (`check_active_bidders`): classification of the active-bidders
cache response. -/
def check_active_bidders_body (resp : Response) : Except String CheckResult := do
  let data ← resp.jsonBody
  let st ← pyDictGet data "status"
  if pyEqStr st "success" then
    let result ← pyDictGetD data "result" (Json.obj [])
    let bidders ← pyDictGetD result "active_bidders" (Json.arr [])
    if bidders.pyTruthy then
      let n ← bidders.pyLen
      return ⟨5, "Active Bidders Cache", Status.PASS,
        toString n ++ " active bidder(s) in cache"⟩
    else
      return ⟨5, "Active Bidders Cache", Status.WARN,
        "⚠️  Active bidders list is empty — no ad groups are active"⟩
  else
    let error_code ← pyDictGetD data "error_code" (Json.str "unknown")
    let fallback ← pyDictGetD data "error" (Json.str "unknown error")
    let error_msg ← pyDictGetD data "message" fallback
    return ⟨5, "Active Bidders Cache", Status.FAIL,
      "Error " ++ error_code.pyStr ++ ": " ++ error_msg.pyStr⟩

/-- Check 5 including the `try/except` arms of `check_active_bidders`. -/
def check_active_bidders (o : HttpOutcome) : CheckResult :=
  match o with
  | .timeout => ⟨5, "Active Bidders Cache", Status.FAIL, "Request timed out"⟩
  | .connectError => ⟨5, "Active Bidders Cache", Status.FAIL, "Connection error"⟩
  | .exn m => ⟨5, "Active Bidders Cache", Status.FAIL, "Unexpected error: " ++ m⟩
  | .ok resp =>
    match check_active_bidders_body resp with
    | .ok r => r
    | .error m => ⟨5, "Active Bidders Cache", Status.FAIL, "Unexpected error: " ++ m⟩

/-- Check 6 (`check_attributable_entities`): classification of the
attributable-entities cache response. -/
def check_attributable_entities_body (resp : Response) : Except String CheckResult := do
  let data ← resp.jsonBody
  let st ← pyDictGet data "status"
  if pyEqStr st "success" then
    let result ← pyDictGetD data "result" (Json.obj [])
    let entities ← pyDictGetD result "attributable_entities" (Json.arr [])
    if entities.pyTruthy then
      let n ← entities.pyLen
      return ⟨6, "Attributable Entities Cache", Status.PASS,
        toString n ++ " attributable entit(ies) in cache"⟩
    else
      return ⟨6, "Attributable Entities Cache", Status.WARN,
        "⚠️  No attributable entities — conversions won\x27t attribute"⟩
  else
    let error_code ← pyDictGetD data "error_code" (Json.str "unknown")
    let fallback ← pyDictGetD data "error" (Json.str "unknown error")
    let error_msg ← pyDictGetD data "message" fallback
    return ⟨6, "Attributable Entities Cache", Status.FAIL,
      "Error " ++ error_code.pyStr ++ ": " ++ error_msg.pyStr⟩

/-- Check 6 including the `try/except` arms of `check_attributable_entities`. -/
def check_attributable_entities (o : HttpOutcome) : CheckResult :=
  match o with
  | .timeout => ⟨6, "Attributable Entities Cache", Status.FAIL, "Request timed out"⟩
  | .connectError => ⟨6, "Attributable Entities Cache", Status.FAIL, "Connection error"⟩
  | .exn m => ⟨6, "Attributable Entities Cache", Status.FAIL, "Unexpected error: " ++ m⟩
  | .ok resp =>
    match check_attributable_entities_body resp with
    | .ok r => r
    | .error m =>
      ⟨6, "Attributable Entities Cache", Status.FAIL, "Unexpected error: " ++ m⟩

/-- Success-path body of check 7 (`check_winning_ads`), entered once the HTTP
status is 200: parse the body and count `sponsored_listings`. -/
def check_winning_ads_ok_body (resp : Response) : Except String CheckResult := do
  let data ← resp.jsonBody
  let listings ← pyDictGetD data "sponsored_listings" (Json.arr [])
  let count ← listings.pyLen
  if count ≠ 0 then
    return ⟨7, "Winning Ads (Test Auction)", Status.PASS,
      "Auction responded OK — " ++ toString count ++ " sponsored listing(s) returned"⟩
  else
    return ⟨7, "Winning Ads (Test Auction)", Status.PASS,
      "Auction responded OK — 0 listings (expected with empty bidders)"⟩

/-- Check 7 (`check_winning_ads`): classification of the test-auction
response, including the non-200 branch and the `try/except` arms.  The
unreachable-host detail uses the configured client name. -/
def check_winning_ads (client_name : String) (o : HttpOutcome) : CheckResult :=
  match o with
  | .timeout => ⟨7, "Winning Ads (Test Auction)", Status.FAIL, "Request timed out"⟩
  | .connectError =>
      ⟨7, "Winning Ads (Test Auction)", Status.FAIL,
        "Connection error — cannot reach " ++ client_name ++ ".koddi.io"⟩
  | .exn m => ⟨7, "Winning Ads (Test Auction)", Status.FAIL, "Unexpected error: " ++ m⟩
  | .ok resp =>
    if resp.status_code ≠ 200 then
      ⟨7, "Winning Ads (Test Auction)", Status.FAIL,
        "HTTP " ++ toString resp.status_code ++
        " — auction engine may be misconfigured or client \x27" ++ client_name ++
        "\x27 is not provisioned"⟩
    else
      match check_winning_ads_ok_body resp with
      | .ok r => r
      | .error m =>
        ⟨7, "Winning Ads (Test Auction)", Status.FAIL, "Unexpected error: " ++ m⟩

/-- The HTTP request issued by `check_auth`. -/
def check_auth_request (base : String) (cfg : RunConfig) : Request :=
  make_request "POST" (base ++ "/session/login") none
    (some (Json.obj
      [("email", Json.str cfg.email), ("password", Json.str cfg.password),
       ("member_group_id", Json.num cfg.member_group_id)]))

/-- The HTTP request issued by `check_advertiser`. -/
def check_advertiser_request (base : String) (cfg : RunConfig) (token : Json) : Request :=
  make_request "GET"
    (base ++ "/member_groups/" ++ toString cfg.member_group_id ++
      "/advertisers/" ++ toString cfg.advertiser_id)
    (some token) none

/-- The HTTP request issued by `check_campaigns`. -/
def check_campaigns_request (base : String) (cfg : RunConfig) (token : Json) : Request :=
  make_request "POST"
    (base ++ "/member_groups/" ++ toString cfg.member_group_id ++
      "/advertisers/" ++ toString cfg.advertiser_id ++ "/campaigns_report")
    (some token)
    (some (Json.obj [("pagination", Json.obj [("start", Json.num 0)])]))

/-- The HTTP request issued by `check_entity_failures`. -/
def check_entity_failures_request (base : String) (cfg : RunConfig) (token : Json) :
    Request :=
  make_request "POST"
    (base ++ "/member_groups/" ++ toString cfg.member_group_id ++
      "/advertisers/" ++ toString cfg.advertiser_id ++
      "/entity_registrations/failed/report")
    (some token)
    (some (Json.obj
      [("pagination", Json.obj [("count", Json.num 50), ("start", Json.num 0)])]))

/-- The HTTP request issued by `check_active_bidders`. -/
def check_active_bidders_request (base : String) (cfg : RunConfig) (token : Json) :
    Request :=
  make_request "GET"
    (base ++ "/member_groups/" ++ toString cfg.member_group_id ++ "/active_bidders")
    (some token) none

/-- The HTTP request issued by `check_attributable_entities`. -/
def check_attributable_entities_request (base : String) (cfg : RunConfig) (token : Json) :
    Request :=
  make_request "GET"
    (base ++ "/member_groups/" ++ toString cfg.member_group_id ++
      "/attributable_entities")
    (some token) none

/-- The HTTP request issued by `check_winning_ads` in the CLI: the
`experience_name` field is added whenever the option is not `None`
(`if experience_name is not None`). -/
def check_winning_ads_request (cfg : RunConfig) : Request :=
  make_request "POST"
    ("https://" ++ cfg.client_name ++ ".koddi.io/auction-engine/winning_ads") none
    (some (Json.obj
      ([("client_name", Json.str cfg.client_name), ("site_id", Json.str cfg.site_id),
        ("slots_available", Json.num 1), ("max_requested", Json.num 1),
        ("user", Json.obj [("guid", Json.str "healthcheck-test-user")]),
        ("bidders", Json.arr [])] ++
       (match cfg.experience_name with
        | some e => [("experience_name", Json.str e)]
        | none => []))))

/-- Output of one CLI run: the ordered result list, the ordered list of HTTP
requests actually issued, and `main`'s running `has_failure` flag. -/
structure RunOutput where
  results : List CheckResult
  requests : List Request
  has_failure : Bool

/-- The check-dependency orchestrator of the CLI (`main` in
`koddi_healthcheck.py`, stripped of rendering): walks checks 1..7 in order,
skipping checks 2–6 when authentication yielded no token (`token is None`) and
checks 3–4 when check 2 failed, and always running check 7.  The transport is
the `oracle`, giving the outcome of each successive HTTP call. -/
def run (cfg : RunConfig) (oracle : Nat → HttpOutcome) : RunOutput :=
  let base := pyRstripSlash cfg.base_url
  match check_auth (oracle 0) with
  | (r1, none) =>
    let r7 := check_winning_ads cfg.client_name (oracle 1)
    { results :=
        [r1,
         ⟨2, "Advertiser Exists", Status.SKIPPED, "Skipped — authentication failed"⟩,
         ⟨3, "Campaigns Report", Status.SKIPPED, "Skipped — authentication failed"⟩,
         ⟨4, "Entity Registration Failures", Status.SKIPPED,
           "Skipped — authentication failed"⟩,
         ⟨5, "Active Bidders Cache", Status.SKIPPED, "Skipped — authentication failed"⟩,
         ⟨6, "Attributable Entities Cache", Status.SKIPPED,
           "Skipped — authentication failed"⟩,
         r7]
      requests := [check_auth_request base cfg, check_winning_ads_request cfg]
      has_failure := (r1.status == Status.FAIL) || (r7.status == Status.FAIL) }
  | (r1, some tok) =>
    let r2 := check_advertiser (oracle 1)
    if r2.status == Status.FAIL then
      let r5 := check_active_bidders (oracle 2)
      let r6 := check_attributable_entities (oracle 3)
      let r7 := check_winning_ads cfg.client_name (oracle 4)
      { results :=
          [r1, r2,
           ⟨3, "Campaigns Report", Status.SKIPPED, "Skipped — advertiser check failed"⟩,
           ⟨4, "Entity Registration Failures", Status.SKIPPED,
             "Skipped — advertiser check failed"⟩,
           r5, r6, r7]
        requests :=
          [check_auth_request base cfg, check_advertiser_request base cfg tok,
           check_active_bidders_request base cfg tok,
           check_attributable_entities_request base cfg tok,
           check_winning_ads_request cfg]
        has_failure :=
          (r1.status == Status.FAIL) || (r2.status == Status.FAIL) ||
          (r5.status == Status.FAIL) || (r6.status == Status.FAIL) ||
          (r7.status == Status.FAIL) }
    else
      let r3 := check_campaigns (oracle 2)
      let r4 := check_entity_failures (oracle 3)
      let r5 := check_active_bidders (oracle 4)
      let r6 := check_attributable_entities (oracle 5)
      let r7 := check_winning_ads cfg.client_name (oracle 6)
      { results := [r1, r2, r3, r4, r5, r6, r7]
        requests :=
          [check_auth_request base cfg, check_advertiser_request base cfg tok,
           check_campaigns_request base cfg tok,
           check_entity_failures_request base cfg tok,
           check_active_bidders_request base cfg tok,
           check_attributable_entities_request base cfg tok,
           check_winning_ads_request cfg]
        has_failure :=
          (r1.status == Status.FAIL) || (r2.status == Status.FAIL) ||
          (r3.status == Status.FAIL) || (r4.status == Status.FAIL) ||
          (r5.status == Status.FAIL) || (r6.status == Status.FAIL) ||
          (r7.status == Status.FAIL) }

/-- The `"overall"` field computed by `results_to_json`: `"fail"` exactly when
some result has status `FAIL`, else `"pass"`. -/
def results_to_json_overall (results : List CheckResult) : String :=
  if results.any (fun r => r.status == Status.FAIL) then "fail" else "pass"

/-- The process exit code of `main` (`sys.exit(1 if has_failure else 0)`). -/
def exit_code (has_failure : Bool) : Nat :=
  if has_failure then 1 else 0

end KH

namespace App

/-- Check 1 (`check_auth` in `app.py`): same logic as the CLI version. -/
def check_auth_body (resp : Response) : Except String (CheckResult × Option Json) := do
  let data ← resp.jsonBody
  let st ← pyDictGet data "status"
  if pyEqStr st "success" then
    let result ← pyDictGetD data "result" (Json.obj [])
    let tokenObj ← pyDictGetD result "token" (Json.obj [])
    let token ← pyDictGet tokenObj "id_token"
    match token with
    | some t =>
      if t.pyTruthy then
        return (⟨1, "Authentication", Status.PASS, "Authenticated successfully"⟩, some t)
      else
        return (⟨1, "Authentication", Status.FAIL, "No id_token in response"⟩, none)
    | none => return (⟨1, "Authentication", Status.FAIL, "No id_token in response"⟩, none)
  else
    let error_code ← pyDictGetD data "error_code" (Json.str "unknown")
    let fallback ← pyDictGetD data "error" (Json.str "unknown error")
    let error_msg ← pyDictGetD data "message" fallback
    return (⟨1, "Authentication", Status.FAIL,
      "Login failed — code " ++ error_code.pyStr ++ ": " ++ error_msg.pyStr⟩, none)

/-- Check 1 of `app.py` including its `try/except` arms. -/
def check_auth (o : HttpOutcome) : CheckResult × Option Json :=
  match o with
  | .timeout => (⟨1, "Authentication", Status.FAIL, "Request timed out"⟩, none)
  | .connectError =>
      (⟨1, "Authentication", Status.FAIL, "Connection error — cannot reach API"⟩, none)
  | .exn m => (⟨1, "Authentication", Status.FAIL, "Unexpected error: " ++ m⟩, none)
  | .ok resp =>
    match check_auth_body resp with
    | .ok r => r
    | .error m => (⟨1, "Authentication", Status.FAIL, "Unexpected error: " ++ m⟩, none)

/-- Check 2 (`check_advertiser` in `app.py`). -/
def check_advertiser_body (resp : Response) : Except String CheckResult := do
  let data ← resp.jsonBody
  let st ← pyDictGet data "status"
  if pyEqStr st "success" then
    let result ← pyDictGetD data "result" (Json.obj [])
    let adv_name ← pyDictGetD result "name" (Json.str "N/A")
    let adv_status ← pyDictGetD result "status" (Json.str "N/A")
    let entity_count ← pyDictGetD result "entity_count" (Json.str "N/A")
    let currency ← pyDictGetD result "currency_code" (Json.str "N/A")
    return ⟨2, "Advertiser Exists", Status.PASS,
      "Found: " ++ adv_name.pyStr ++ " | status=" ++ adv_status.pyStr ++
      " | entities=" ++ entity_count.pyStr ++ " | currency=" ++ currency.pyStr⟩
  else
    let error_code ← pyDictGetD data "error_code" (Json.str "unknown")
    let fallback ← pyDictGetD data "error" (Json.str "unknown error")
    let error_msg ← pyDictGetD data "message" fallback
    return ⟨2, "Advertiser Exists", Status.FAIL,
      "Error " ++ error_code.pyStr ++ ": " ++ error_msg.pyStr⟩

/-- Check 2 of `app.py` including its `try/except` arms. -/
def check_advertiser (o : HttpOutcome) : CheckResult :=
  match o with
  | .timeout => ⟨2, "Advertiser Exists", Status.FAIL, "Request timed out"⟩
  | .connectError => ⟨2, "Advertiser Exists", Status.FAIL, "Connection error"⟩
  | .exn m => ⟨2, "Advertiser Exists", Status.FAIL, "Unexpected error: " ++ m⟩
  | .ok resp =>
    match check_advertiser_body resp with
    | .ok r => r
    | .error m => ⟨2, "Advertiser Exists", Status.FAIL, "Unexpected error: " ++ m⟩

/-- One line of the campaigns listing of `app.py`'s `check_campaigns`
(identical formatting to the CLI's). -/
def campaign_line (c : Json) : Except String String := do
  let c_name ← pyDictGetD c "name" (Json.str "N/A")
  let c_status ← pyDictGetD c "status" (Json.str "N/A")
  let always_on ← pyDictGetD c "always_on" (Json.str "N/A")
  let budget_type ← pyDictGetD c "budget_type" (Json.str "N/A")
  let budget_amount ← pyDictGetD c "budget_amount" (Json.str "N/A")
  return "  • " ++ c_name.pyStr ++ " | status=" ++ c_status.pyStr ++
    " | always_on=" ++ always_on.pyStr ++ " | budget=" ++
    budget_type.pyStr ++ "/" ++ budget_amount.pyStr

/-- Check 3 (`check_campaigns` in `app.py`): same logic as the CLI version,
but its WARN detail has no warning-emoji prefix. -/
def check_campaigns_body (resp : Response) : Except String CheckResult := do
  let data ← resp.jsonBody
  let st ← pyDictGet data "status"
  if pyEqStr st "success" then
    let result ← pyDictGetD data "result" (Json.obj [])
    let campaigns ← pyDictGetD result "campaigns" (Json.arr [])
    let default_total ← campaigns.pyLen
    let total ← pyDictGetD result "total" (Json.num default_total)
    if total.pyEqInt 0 then
      return ⟨3, "Campaigns Report", Status.WARN,
        "Zero campaigns found for this advertiser"⟩
    else
      let cs ← pyIter campaigns
      let clines ← cs.mapM campaign_line
      return ⟨3, "Campaigns Report", Status.PASS,
        String.intercalate "\n"
          (("Found " ++ total.pyStr ++ " campaign(s)") :: clines)⟩
  else
    let error_code ← pyDictGetD data "error_code" (Json.str "unknown")
    let fallback ← pyDictGetD data "error" (Json.str "unknown error")
    let error_msg ← pyDictGetD data "message" fallback
    return ⟨3, "Campaigns Report", Status.FAIL,
      "Error " ++ error_code.pyStr ++ ": " ++ error_msg.pyStr⟩

/-- Check 3 of `app.py` including its `try/except` arms. -/
def check_campaigns (o : HttpOutcome) : CheckResult :=
  match o with
  | .timeout => ⟨3, "Campaigns Report", Status.FAIL, "Request timed out"⟩
  | .connectError => ⟨3, "Campaigns Report", Status.FAIL, "Connection error"⟩
  | .exn m => ⟨3, "Campaigns Report", Status.FAIL, "Unexpected error: " ++ m⟩
  | .ok resp =>
    match check_campaigns_body resp with
    | .ok r => r
    | .error m => ⟨3, "Campaigns Report", Status.FAIL, "Unexpected error: " ++ m⟩

/-- One line of the registration-failure listing of `app.py`'s
`check_entity_failures`. -/
def failure_line (f : Json) : Except String String := do
  let err_code ← pyDictGetD f "error_code" (Json.str "N/A")
  let err_msg ← pyDictGetD f "error_message" (Json.str "N/A")
  return "  • [" ++ err_code.pyStr ++ "] " ++ err_msg.pyStr

/-- Check 4 (`check_entity_failures` in `app.py`): same logic as the CLI
version, but its WARN header has no warning-emoji prefix. -/
def check_entity_failures_body (resp : Response) : Except String CheckResult := do
  let data ← resp.jsonBody
  let st ← pyDictGet data "status"
  if pyEqStr st "success" then
    let result ← pyDictGetD data "result" (Json.obj [])
    let total ← pyDictGetD result "total" (Json.num 0)
    if total.pyEqInt 0 then
      return ⟨4, "Entity Registration Failures", Status.PASS,
        "No entity registration failures"⟩
    else
      let regs ← pyDictGetD result "entity_registrations" (Json.arr [])
      let failures ← pySlice regs 5
      let flines ← failures.mapM failure_line
      return ⟨4, "Entity Registration Failures", Status.WARN,
        String.intercalate "\n"
          ((total.pyStr ++ " registration failure(s) found. First " ++
            toString failures.length ++ ":") :: flines)⟩
  else
    let error_code ← pyDictGetD data "error_code" (Json.str "unknown")
    let fallback ← pyDictGetD data "error" (Json.str "unknown error")
    let error_msg ← pyDictGetD data "message" fallback
    return ⟨4, "Entity Registration Failures", Status.FAIL,
      "Error " ++ error_code.pyStr ++ ": " ++ error_msg.pyStr⟩

/-- Check 4 of `app.py` including its `try/except` arms. -/
def check_entity_failures (o : HttpOutcome) : CheckResult :=
  match o with
  | .timeout => ⟨4, "Entity Registration Failures", Status.FAIL, "Request timed out"⟩
  | .connectError => ⟨4, "Entity Registration Failures", Status.FAIL, "Connection error"⟩
  | .exn m => ⟨4, "Entity Registration Failures", Status.FAIL, "Unexpected error: " ++ m⟩
  | .ok resp =>
    match check_entity_failures_body resp with
    | .ok r => r
    | .error m =>
      ⟨4, "Entity Registration Failures", Status.FAIL, "Unexpected error: " ++ m⟩

/-- Check 5 (`check_active_bidders` in `app.py`): same logic as the CLI
version, but its WARN detail has no warning-emoji prefix. -/
def check_active_bidders_body (resp : Response) : Except String CheckResult := do
  let data ← resp.jsonBody
  let st ← pyDictGet data "status"
  if pyEqStr st "success" then
    let result ← pyDictGetD data "result" (Json.obj [])
    let bidders ← pyDictGetD result "active_bidders" (Json.arr [])
    if bidders.pyTruthy then
      let n ← bidders.pyLen
      return ⟨5, "Active Bidders Cache", Status.PASS,
        toString n ++ " active bidder(s) in cache"⟩
    else
      return ⟨5, "Active Bidders Cache", Status.WARN,
        "Active bidders list is empty — no ad groups are active"⟩
  else
    let error_code ← pyDictGetD data "error_code" (Json.str "unknown")
    let fallback ← pyDictGetD data "error" (Json.str "unknown error")
    let error_msg ← pyDictGetD data "message" fallback
    return ⟨5, "Active Bidders Cache", Status.FAIL,
      "Error " ++ error_code.pyStr ++ ": " ++ error_msg.pyStr⟩

/-- Check 5 of `app.py` including its `try/except` arms. -/
def check_active_bidders (o : HttpOutcome) : CheckResult :=
  match o with
  | .timeout => ⟨5, "Active Bidders Cache", Status.FAIL, "Request timed out"⟩
  | .connectError => ⟨5, "Active Bidders Cache", Status.FAIL, "Connection error"⟩
  | .exn m => ⟨5, "Active Bidders Cache", Status.FAIL, "Unexpected error: " ++ m⟩
  | .ok resp =>
    match check_active_bidders_body resp with
    | .ok r => r
    | .error m => ⟨5, "Active Bidders Cache", Status.FAIL, "Unexpected error: " ++ m⟩

/-- Check 6 (`check_attributable_entities` in `app.py`): same logic as the CLI
version, but its WARN detail has no warning-emoji prefix. -/
def check_attributable_entities_body (resp : Response) : Except String CheckResult := do
  let data ← resp.jsonBody
  let st ← pyDictGet data "status"
  if pyEqStr st "success" then
    let result ← pyDictGetD data "result" (Json.obj [])
    let entities ← pyDictGetD result "attributable_entities" (Json.arr [])
    if entities.pyTruthy then
      let n ← entities.pyLen
      return ⟨6, "Attributable Entities Cache", Status.PASS,
        toString n ++ " attributable entit(ies) in cache"⟩
    else
      return ⟨6, "Attributable Entities Cache", Status.WARN,
        "No attributable entities — conversions won\x27t attribute"⟩
  else
    let error_code ← pyDictGetD data "error_code" (Json.str "unknown")
    let fallback ← pyDictGetD data "error" (Json.str "unknown error")
    let error_msg ← pyDictGetD data "message" fallback
    return ⟨6, "Attributable Entities Cache", Status.FAIL,
      "Error " ++ error_code.pyStr ++ ": " ++ error_msg.pyStr⟩

/-- Check 6 of `app.py` including its `try/except` arms. -/
def check_attributable_entities (o : HttpOutcome) : CheckResult :=
  match o with
  | .timeout => ⟨6, "Attributable Entities Cache", Status.FAIL, "Request timed out"⟩
  | .connectError => ⟨6, "Attributable Entities Cache", Status.FAIL, "Connection error"⟩
  | .exn m => ⟨6, "Attributable Entities Cache", Status.FAIL, "Unexpected error: " ++ m⟩
  | .ok resp =>
    match check_attributable_entities_body resp with
    | .ok r => r
    | .error m =>
      ⟨6, "Attributable Entities Cache", Status.FAIL, "Unexpected error: " ++ m⟩

/-- Success-path body of `app.py`'s check 7, entered once the HTTP status is
200. -/
def check_winning_ads_ok_body (resp : Response) : Except String CheckResult := do
  let data ← resp.jsonBody
  let listings ← pyDictGetD data "sponsored_listings" (Json.arr [])
  let count ← listings.pyLen
  if count ≠ 0 then
    return ⟨7, "Winning Ads (Test Auction)", Status.PASS,
      "Auction responded OK — " ++ toString count ++ " sponsored listing(s) returned"⟩
  else
    return ⟨7, "Winning Ads (Test Auction)", Status.PASS,
      "Auction responded OK — 0 listings (expected with empty bidders)"⟩

/-- Check 7 (`check_winning_ads` in `app.py`). -/
def check_winning_ads (client_name : String) (o : HttpOutcome) : CheckResult :=
  match o with
  | .timeout => ⟨7, "Winning Ads (Test Auction)", Status.FAIL, "Request timed out"⟩
  | .connectError =>
      ⟨7, "Winning Ads (Test Auction)", Status.FAIL,
        "Connection error — cannot reach " ++ client_name ++ ".koddi.io"⟩
  | .exn m => ⟨7, "Winning Ads (Test Auction)", Status.FAIL, "Unexpected error: " ++ m⟩
  | .ok resp =>
    if resp.status_code ≠ 200 then
      ⟨7, "Winning Ads (Test Auction)", Status.FAIL,
        "HTTP " ++ toString resp.status_code ++
        " — auction engine may be misconfigured or client \x27" ++ client_name ++
        "\x27 is not provisioned"⟩
    else
      match check_winning_ads_ok_body resp with
      | .ok r => r
      | .error m =>
        ⟨7, "Winning Ads (Test Auction)", Status.FAIL, "Unexpected error: " ++ m⟩

/-- The HTTP request issued by `app.py`'s `check_winning_ads`: unlike the CLI,
the `experience_name` field is added only when the option is truthy
(`if experience_name:`), so an empty string is omitted. -/
def check_winning_ads_request (cfg : RunConfig) : Request :=
  make_request "POST"
    ("https://" ++ cfg.client_name ++ ".koddi.io/auction-engine/winning_ads") none
    (some (Json.obj
      ([("client_name", Json.str cfg.client_name), ("site_id", Json.str cfg.site_id),
        ("slots_available", Json.num 1), ("max_requested", Json.num 1),
        ("user", Json.obj [("guid", Json.str "healthcheck-test-user")]),
        ("bidders", Json.arr [])] ++
       (match cfg.experience_name with
        | some e => if e ≠ "" then [("experience_name", Json.str e)] else []
        | none => []))))

/-- The check-dependency orchestrator of the web UI (`run_checks` in
`app.py`, stripped of the progress callback): the same ordering and skip
policy as the CLI's `main`.  The remaining request builders are shared with
the CLI namespace because `app.py`'s URL and body templates for checks 1–6 are
character-for-character the same. -/
def run_checks (cfg : RunConfig) (oracle : Nat → HttpOutcome) :
    List CheckResult × List Request :=
  let base := pyRstripSlash cfg.base_url
  match check_auth (oracle 0) with
  | (r1, none) =>
    ([r1,
      ⟨2, "Advertiser Exists", Status.SKIPPED, "Skipped — authentication failed"⟩,
      ⟨3, "Campaigns Report", Status.SKIPPED, "Skipped — authentication failed"⟩,
      ⟨4, "Entity Registration Failures", Status.SKIPPED,
        "Skipped — authentication failed"⟩,
      ⟨5, "Active Bidders Cache", Status.SKIPPED, "Skipped — authentication failed"⟩,
      ⟨6, "Attributable Entities Cache", Status.SKIPPED,
        "Skipped — authentication failed"⟩,
      check_winning_ads cfg.client_name (oracle 1)],
     [KH.check_auth_request base cfg, check_winning_ads_request cfg])
  | (r1, some tok) =>
    let r2 := check_advertiser (oracle 1)
    if r2.status == Status.FAIL then
      ([r1, r2,
        ⟨3, "Campaigns Report", Status.SKIPPED, "Skipped — advertiser check failed"⟩,
        ⟨4, "Entity Registration Failures", Status.SKIPPED,
          "Skipped — advertiser check failed"⟩,
        check_active_bidders (oracle 2),
        check_attributable_entities (oracle 3),
        check_winning_ads cfg.client_name (oracle 4)],
       [KH.check_auth_request base cfg, KH.check_advertiser_request base cfg tok,
        KH.check_active_bidders_request base cfg tok,
        KH.check_attributable_entities_request base cfg tok,
        check_winning_ads_request cfg])
    else
      ([r1, r2,
        check_campaigns (oracle 2),
        check_entity_failures (oracle 3),
        check_active_bidders (oracle 4),
        check_attributable_entities (oracle 5),
        check_winning_ads cfg.client_name (oracle 6)],
       [KH.check_auth_request base cfg, KH.check_advertiser_request base cfg tok,
        KH.check_campaigns_request base cfg tok,
        KH.check_entity_failures_request base cfg tok,
        KH.check_active_bidders_request base cfg tok,
        KH.check_attributable_entities_request base cfg tok,
        check_winning_ads_request cfg])

end App


/-! ### Concrete fixtures

Sample configurations, responses and oracles used to instantiate theorems with
hypotheses and to exhibit counterexamples.  They correspond to the scenarios of
the specification (successful login, scenario-B login error, scenario-C empty
campaign report). -/

/-- A sample run configuration with the default base URL and site id. -/
def sampleConfig : RunConfig :=
  ⟨"bob@company.com", "hunter2", 1234, 5678, "myretailer", "homepage", none,
   "https://koddi.io/console/v1"⟩

/-- Scenario-A login response: success envelope carrying token `"abc"`. -/
def loginSuccess : HttpOutcome :=
  HttpOutcome.ok ⟨200, Except.ok (Json.obj
    [("status", Json.str "success"),
     ("result", Json.obj [("token", Json.obj [("id_token", Json.str "abc")])])])⟩

/-- Scenario-B login response: error envelope with code `E401`. -/
def loginError : HttpOutcome :=
  HttpOutcome.ok ⟨200, Except.ok (Json.obj
    [("status", Json.str "error"), ("error_code", Json.str "E401"),
     ("message", Json.str "bad credentials")])⟩

/-- A successful advertiser-lookup response with string-valued fields. -/
def advertiserSuccess : HttpOutcome :=
  HttpOutcome.ok ⟨200, Except.ok (Json.obj
    [("status", Json.str "success"),
     ("result", Json.obj
       [("name", Json.str "Acme"), ("status", Json.str "active"),
        ("entity_count", Json.str "5"), ("currency_code", Json.str "USD")])])⟩

/-- An advertiser-lookup error envelope (code 404). -/
def advertiserError : HttpOutcome :=
  HttpOutcome.ok ⟨200, Except.ok (Json.obj
    [("status", Json.str "error"), ("error_code", Json.str "404"),
     ("message", Json.str "advertiser not found")])⟩

/-- Scenario-C campaigns response: success envelope, zero campaigns. -/
def campaignsZero : HttpOutcome :=
  HttpOutcome.ok ⟨200, Except.ok (Json.obj
    [("status", Json.str "success"),
     ("result", Json.obj [("campaigns", Json.arr []), ("total", Json.num 0)])])⟩

/-- An oracle under which every HTTP call times out. -/
def oracleAllTimeout : Nat → HttpOutcome := fun _ => HttpOutcome.timeout

/-- An oracle replaying scenario B: the login fails, later calls time out. -/
def oracleLoginError : Nat → HttpOutcome := fun n =>
  match n with
  | 0 => loginError
  | _ => HttpOutcome.timeout

/-- An oracle under which login succeeds but the advertiser check fails. -/
def oracleAdvertiserError : Nat → HttpOutcome := fun n =>
  match n with
  | 0 => loginSuccess
  | 1 => advertiserError
  | _ => HttpOutcome.timeout

/-- An oracle replaying scenario C: login and advertiser succeed, the
campaigns report is a success envelope with zero campaigns, and the remaining
calls time out. -/
def oracleCampaignsZero : Nat → HttpOutcome := fun n =>
  match n with
  | 0 => loginSuccess
  | 1 => advertiserSuccess
  | 2 => campaignsZero
  | _ => HttpOutcome.timeout

/-- Correspondence between a CLI result and a web-UI result: same check
number, name and status, and the same details up to the CLI's decorative
warning-emoji prefix. -/
def WarnRel (a b : CheckResult) : Prop :=
  a.number = b.number ∧ a.name = b.name ∧ a.status = b.status ∧
  (a.details = b.details ∨ a.details = "⚠️  " ++ b.details)

/-- Lift of `WarnRel` to fallible classifier bodies: identical error
messages, and related results. -/
def WarnRelE : Except String CheckResult → Except String CheckResult → Prop
  | .error m, .error m2 => m = m2
  | .ok a, .ok b => WarnRel a b
  | _, _ => False

/-! ### Helper lemmas -/

@[simp] theorem okBind {ε α β : Type} (a : α) (f : α → Except ε β) :
    (Except.ok a >>= f) = f a := rfl

@[simp] theorem errorBind {ε α β : Type} (e : ε) (f : α → Except ε β) :
    ((Except.error e : Except ε α) >>= f) = Except.error e := rfl

@[simp] theorem pureEqOk {ε α : Type} (a : α) :
    (pure a : Except ε α) = Except.ok a := rfl

theorem KH.check_advertiser_body_shape (resp : Response) (r : CheckResult)
    (h : KH.check_advertiser_body resp = Except.ok r) :
    r.number = 2 ∧ r.name = "Advertiser Exists" ∧ r.status ≠ Status.SKIPPED := by
  unfold KH.check_advertiser_body at h
  cases hj : resp.jsonBody <;> rw [hj] at h <;>
    simp only [okBind, errorBind, pureEqOk] at h
  case error => cases h
  case ok data =>
    cases data <;> simp only [pyDictGet, pyDictGetD, okBind, errorBind] at h <;>
      try (cases h)
    case obj kvs =>
      split at h
      case isTrue =>
        cases hres : (List.lookup "result" kvs).getD (Json.obj []) <;>
          rw [hres] at h <;> simp only [okBind, errorBind, pureEqOk] at h <;>
          first
            | (injection h with h2; subst h2; exact ⟨rfl, rfl, nofun⟩)
            | cases h
      case isFalse =>
        injection h with h2
        subst h2
        exact ⟨rfl, rfl, nofun⟩

theorem KH.check_advertiser_shape (o : HttpOutcome) :
    (KH.check_advertiser o).number = 2 ∧
    (KH.check_advertiser o).name = "Advertiser Exists" ∧
    (KH.check_advertiser o).status ≠ Status.SKIPPED := by
  cases o with
  | timeout => exact ⟨rfl, rfl, nofun⟩
  | connectError => exact ⟨rfl, rfl, nofun⟩
  | exn m => exact ⟨rfl, rfl, nofun⟩
  | ok resp =>
    simp only [KH.check_advertiser]
    cases hb : KH.check_advertiser_body resp with
    | error m => exact ⟨rfl, rfl, nofun⟩
    | ok r => exact KH.check_advertiser_body_shape resp r hb

theorem KH.check_auth_body_shape (resp : Response) (p : CheckResult × Option Json)
    (h : KH.check_auth_body resp = Except.ok p) :
    p.1.number = 1 ∧ p.1.name = "Authentication" ∧ p.1.status ≠ Status.SKIPPED ∧
    (p.2 = none ↔ p.1.status = Status.FAIL) := by
  unfold KH.check_auth_body at h
  cases hj : resp.jsonBody <;> rw [hj] at h <;>
    simp only [okBind, errorBind, pureEqOk] at h
  case error => cases h
  case ok data =>
    cases data <;> simp only [pyDictGet, pyDictGetD, okBind, errorBind] at h <;>
      try (cases h)
    case obj kvs =>
      split at h
      case isFalse =>
        injection h with h2; subst h2; exact ⟨rfl, rfl, nofun, iff_of_true rfl rfl⟩
      case isTrue =>
        cases hres : (List.lookup "result" kvs).getD (Json.obj []) <;>
          rw [hres] at h <;>
          simp only [pyDictGetD, okBind, errorBind, pureEqOk] at h <;> try (cases h)
        case obj fields =>
          cases htok : (List.lookup "token" fields).getD (Json.obj []) <;>
            rw [htok] at h <;>
            simp only [pyDictGet, okBind, errorBind, pureEqOk] at h <;> try (cases h)
          case obj tfields =>
            cases hid : List.lookup "id_token" tfields <;> rw [hid] at h <;>
              simp only [okBind, errorBind, pureEqOk] at h
            case none =>
              injection h with h2; subst h2; exact ⟨rfl, rfl, nofun, iff_of_true rfl rfl⟩
            case some t =>
              split at h <;> (injection h with h2; subst h2) <;>
                first
                  | exact ⟨rfl, rfl, nofun, iff_of_false (fun hcon => Option.noConfusion hcon) (fun hcon => Status.noConfusion hcon)⟩
                  | exact ⟨rfl, rfl, nofun, iff_of_true rfl rfl⟩

theorem KH.check_auth_shape (o : HttpOutcome) :
    (KH.check_auth o).1.number = 1 ∧ (KH.check_auth o).1.name = "Authentication" ∧
    (KH.check_auth o).1.status ≠ Status.SKIPPED ∧
    ((KH.check_auth o).2 = none ↔ (KH.check_auth o).1.status = Status.FAIL) := by
  cases o with
  | timeout => exact ⟨rfl, rfl, nofun, iff_of_true rfl rfl⟩
  | connectError => exact ⟨rfl, rfl, nofun, iff_of_true rfl rfl⟩
  | exn m => exact ⟨rfl, rfl, nofun, iff_of_true rfl rfl⟩
  | ok resp =>
    simp only [KH.check_auth]
    cases hb : KH.check_auth_body resp with
    | error m => exact ⟨rfl, rfl, nofun, iff_of_true rfl rfl⟩
    | ok p => exact KH.check_auth_body_shape resp p hb

theorem KH.check_campaigns_body_shape (resp : Response) (r : CheckResult)
    (h : KH.check_campaigns_body resp = Except.ok r) :
    r.number = 3 ∧ r.name = "Campaigns Report" ∧ r.status ≠ Status.SKIPPED := by
  unfold KH.check_campaigns_body at h
  cases hj : resp.jsonBody <;> rw [hj] at h <;>
    simp only [okBind, errorBind, pureEqOk] at h
  case error => cases h
  case ok data =>
    cases data <;> simp only [pyDictGet, pyDictGetD, okBind, errorBind] at h <;>
      try (cases h)
    case obj kvs =>
      split at h
      case isFalse =>
        injection h with h2; subst h2; exact ⟨rfl, rfl, nofun⟩
      case isTrue =>
        cases hres : (List.lookup "result" kvs).getD (Json.obj []) <;>
          rw [hres] at h <;>
          simp only [pyDictGetD, okBind, errorBind, pureEqOk] at h <;> try (cases h)
        case obj fields =>
          cases hcamp : (List.lookup "campaigns" fields).getD (Json.arr []) <;>
            rw [hcamp] at h <;>
            simp only [Json.pyLen, pyIter, okBind, errorBind, pureEqOk] at h <;>
            try (cases h)
          case str s =>
            split at h
            · injection h with h2; subst h2; exact ⟨rfl, rfl, nofun⟩
            · cases h
          case obj kvs2 =>
            split at h
            · injection h with h2; subst h2; exact ⟨rfl, rfl, nofun⟩
            · cases h
          case arr xs =>
            split at h
            · injection h with h2; subst h2; exact ⟨rfl, rfl, nofun⟩
            · cases hmap : xs.mapM KH.campaign_line <;> rw [hmap] at h <;>
                simp only [okBind, errorBind, pureEqOk] at h
              · cases h
              · injection h with h2; subst h2; exact ⟨rfl, rfl, nofun⟩

theorem KH.check_campaigns_shape (o : HttpOutcome) :
    (KH.check_campaigns o).number = 3 ∧
    (KH.check_campaigns o).name = "Campaigns Report" ∧
    (KH.check_campaigns o).status ≠ Status.SKIPPED := by
  cases o with
  | timeout => exact ⟨rfl, rfl, nofun⟩
  | connectError => exact ⟨rfl, rfl, nofun⟩
  | exn m => exact ⟨rfl, rfl, nofun⟩
  | ok resp =>
    simp only [KH.check_campaigns]
    cases hb : KH.check_campaigns_body resp with
    | error m => exact ⟨rfl, rfl, nofun⟩
    | ok r => exact KH.check_campaigns_body_shape resp r hb

theorem KH.check_entity_failures_body_shape (resp : Response) (r : CheckResult)
    (h : KH.check_entity_failures_body resp = Except.ok r) :
    r.number = 4 ∧ r.name = "Entity Registration Failures" ∧
    r.status ≠ Status.SKIPPED := by
  unfold KH.check_entity_failures_body at h
  cases hj : resp.jsonBody <;> rw [hj] at h <;>
    simp only [okBind, errorBind, pureEqOk] at h
  case error => cases h
  case ok data =>
    cases data <;> simp only [pyDictGet, pyDictGetD, okBind, errorBind] at h <;>
      try (cases h)
    case obj kvs =>
      split at h
      case isFalse =>
        injection h with h2; subst h2; exact ⟨rfl, rfl, nofun⟩
      case isTrue =>
        cases hres : (List.lookup "result" kvs).getD (Json.obj []) <;>
          rw [hres] at h <;>
          simp only [pyDictGetD, okBind, errorBind, pureEqOk] at h <;> try (cases h)
        case obj fields =>
          split at h
          case isTrue =>
            injection h with h2; subst h2; exact ⟨rfl, rfl, nofun⟩
          case isFalse =>
            cases hregs : (List.lookup "entity_registrations" fields).getD (Json.arr []) <;>
              rw [hregs] at h <;>
              simp only [pySlice, okBind, errorBind, pureEqOk] at h <;> try (cases h)
            case arr xs =>
              cases hmap : (xs.take 5).mapM KH.failure_line <;> rw [hmap] at h <;>
                simp only [okBind, errorBind, pureEqOk] at h
              · cases h
              · injection h with h2; subst h2; exact ⟨rfl, rfl, nofun⟩

theorem KH.check_entity_failures_shape (o : HttpOutcome) :
    (KH.check_entity_failures o).number = 4 ∧
    (KH.check_entity_failures o).name = "Entity Registration Failures" ∧
    (KH.check_entity_failures o).status ≠ Status.SKIPPED := by
  cases o with
  | timeout => exact ⟨rfl, rfl, nofun⟩
  | connectError => exact ⟨rfl, rfl, nofun⟩
  | exn m => exact ⟨rfl, rfl, nofun⟩
  | ok resp =>
    simp only [KH.check_entity_failures]
    cases hb : KH.check_entity_failures_body resp with
    | error m => exact ⟨rfl, rfl, nofun⟩
    | ok r => exact KH.check_entity_failures_body_shape resp r hb

theorem KH.check_active_bidders_body_shape (resp : Response) (r : CheckResult)
    (h : KH.check_active_bidders_body resp = Except.ok r) :
    r.number = 5 ∧ r.name = "Active Bidders Cache" ∧ r.status ≠ Status.SKIPPED := by
  unfold KH.check_active_bidders_body at h
  cases hj : resp.jsonBody <;> rw [hj] at h <;>
    simp only [okBind, errorBind, pureEqOk] at h
  case error => cases h
  case ok data =>
    cases data <;> simp only [pyDictGet, pyDictGetD, okBind, errorBind] at h <;>
      try (cases h)
    case obj kvs =>
      split at h
      case isFalse =>
        injection h with h2; subst h2; exact ⟨rfl, rfl, nofun⟩
      case isTrue =>
        cases hres : (List.lookup "result" kvs).getD (Json.obj []) <;>
          rw [hres] at h <;>
          simp only [pyDictGetD, okBind, errorBind, pureEqOk] at h <;> try (cases h)
        case obj fields =>
          cases hbid : (List.lookup "active_bidders" fields).getD (Json.arr []) <;>
            rw [hbid] at h <;>
            simp only [Json.pyTruthy, Json.pyLen, okBind, errorBind, pureEqOk,
              reduceIte] at h <;>
            first
              | (injection h with h2; subst h2; exact ⟨rfl, rfl, nofun⟩)
              | cases h
              | (split at h <;>
                  first
                    | (injection h with h2; subst h2; exact ⟨rfl, rfl, nofun⟩)
                    | cases h)

theorem KH.check_active_bidders_shape (o : HttpOutcome) :
    (KH.check_active_bidders o).number = 5 ∧
    (KH.check_active_bidders o).name = "Active Bidders Cache" ∧
    (KH.check_active_bidders o).status ≠ Status.SKIPPED := by
  cases o with
  | timeout => exact ⟨rfl, rfl, nofun⟩
  | connectError => exact ⟨rfl, rfl, nofun⟩
  | exn m => exact ⟨rfl, rfl, nofun⟩
  | ok resp =>
    simp only [KH.check_active_bidders]
    cases hb : KH.check_active_bidders_body resp with
    | error m => exact ⟨rfl, rfl, nofun⟩
    | ok r => exact KH.check_active_bidders_body_shape resp r hb

theorem KH.check_attributable_entities_body_shape (resp : Response) (r : CheckResult)
    (h : KH.check_attributable_entities_body resp = Except.ok r) :
    r.number = 6 ∧ r.name = "Attributable Entities Cache" ∧
    r.status ≠ Status.SKIPPED := by
  unfold KH.check_attributable_entities_body at h
  cases hj : resp.jsonBody <;> rw [hj] at h <;>
    simp only [okBind, errorBind, pureEqOk] at h
  case error => cases h
  case ok data =>
    cases data <;> simp only [pyDictGet, pyDictGetD, okBind, errorBind] at h <;>
      try (cases h)
    case obj kvs =>
      split at h
      case isFalse =>
        injection h with h2; subst h2; exact ⟨rfl, rfl, nofun⟩
      case isTrue =>
        cases hres : (List.lookup "result" kvs).getD (Json.obj []) <;>
          rw [hres] at h <;>
          simp only [pyDictGetD, okBind, errorBind, pureEqOk] at h <;> try (cases h)
        case obj fields =>
          cases hent : (List.lookup "attributable_entities" fields).getD (Json.arr []) <;>
            rw [hent] at h <;>
            simp only [Json.pyTruthy, Json.pyLen, okBind, errorBind, pureEqOk,
              reduceIte] at h <;>
            first
              | (injection h with h2; subst h2; exact ⟨rfl, rfl, nofun⟩)
              | cases h
              | (split at h <;>
                  first
                    | (injection h with h2; subst h2; exact ⟨rfl, rfl, nofun⟩)
                    | cases h)

theorem KH.check_attributable_entities_shape (o : HttpOutcome) :
    (KH.check_attributable_entities o).number = 6 ∧
    (KH.check_attributable_entities o).name = "Attributable Entities Cache" ∧
    (KH.check_attributable_entities o).status ≠ Status.SKIPPED := by
  cases o with
  | timeout => exact ⟨rfl, rfl, nofun⟩
  | connectError => exact ⟨rfl, rfl, nofun⟩
  | exn m => exact ⟨rfl, rfl, nofun⟩
  | ok resp =>
    simp only [KH.check_attributable_entities]
    cases hb : KH.check_attributable_entities_body resp with
    | error m => exact ⟨rfl, rfl, nofun⟩
    | ok r => exact KH.check_attributable_entities_body_shape resp r hb

theorem KH.check_winning_ads_ok_body_shape (resp : Response) (r : CheckResult)
    (h : KH.check_winning_ads_ok_body resp = Except.ok r) :
    r.number = 7 ∧ r.name = "Winning Ads (Test Auction)" ∧
    r.status ≠ Status.SKIPPED := by
  unfold KH.check_winning_ads_ok_body at h
  cases hj : resp.jsonBody <;> rw [hj] at h <;>
    simp only [okBind, errorBind, pureEqOk] at h
  case error => cases h
  case ok data =>
    cases data <;> simp only [pyDictGetD, okBind, errorBind] at h <;>
      try (cases h)
    case obj kvs =>
      cases hlist : (List.lookup "sponsored_listings" kvs).getD (Json.arr []) <;>
        rw [hlist] at h <;>
        simp only [Json.pyLen, okBind, errorBind, pureEqOk] at h <;>
        first
          | cases h
          | (split at h <;>
              (injection h with h2; subst h2; exact ⟨rfl, rfl, nofun⟩))

theorem KH.check_winning_ads_shape (c : String) (o : HttpOutcome) :
    (KH.check_winning_ads c o).number = 7 ∧
    (KH.check_winning_ads c o).name = "Winning Ads (Test Auction)" ∧
    (KH.check_winning_ads c o).status ≠ Status.SKIPPED := by
  cases o with
  | timeout => exact ⟨rfl, rfl, nofun⟩
  | connectError => exact ⟨rfl, rfl, nofun⟩
  | exn m => exact ⟨rfl, rfl, nofun⟩
  | ok resp =>
    simp only [KH.check_winning_ads]
    split
    · exact ⟨rfl, rfl, nofun⟩
    · cases hb : KH.check_winning_ads_ok_body resp with
      | error m => exact ⟨rfl, rfl, nofun⟩
      | ok r => exact KH.check_winning_ads_ok_body_shape resp r hb

theorem app_check_auth_eq : App.check_auth = KH.check_auth := rfl

theorem app_check_advertiser_eq : App.check_advertiser = KH.check_advertiser := rfl

theorem app_check_winning_ads_eq : App.check_winning_ads = KH.check_winning_ads := rfl

theorem app_campaign_line_eq : App.campaign_line = KH.campaign_line := rfl

theorem app_failure_line_eq : App.failure_line = KH.failure_line :=
  funext (fun f => by cases f <;> rfl)

theorem intercalate_go_left (p s : String) (l : List String) :
    ∀ x, String.intercalate.go (p ++ x) s l = p ++ String.intercalate.go x s l := by
  induction l with
  | nil => intro x; rfl
  | cons a as ih =>
    intro x
    show String.intercalate.go (p ++ x ++ s ++ a) s as =
      p ++ String.intercalate.go (x ++ s ++ a) s as
    rw [String.append_assoc p x s, String.append_assoc p (x ++ s) a]
    exact ih (x ++ s ++ a)

theorem intercalate_cons_left (p x s : String) (l : List String) :
    String.intercalate s ((p ++ x) :: l) = p ++ String.intercalate s (x :: l) :=
  intercalate_go_left p s l x

theorem campaigns_body_rel (resp : Response) :
    WarnRelE (KH.check_campaigns_body resp) (App.check_campaigns_body resp) := by
  unfold KH.check_campaigns_body App.check_campaigns_body
  rw [app_campaign_line_eq]
  cases hj : resp.jsonBody <;> simp only [okBind, errorBind, pureEqOk]
  case error => exact rfl
  case ok data =>
    cases data <;> simp only [pyDictGet, pyDictGetD, okBind, errorBind] <;>
      try (exact rfl)
    case obj kvs =>
      by_cases hc : pyEqStr (List.lookup "status" kvs) "success" = true
      · simp only [if_pos hc]
        cases hres : (List.lookup "result" kvs).getD (Json.obj []) <;>
          simp only [pyDictGetD, okBind, errorBind, pureEqOk] <;> try (exact rfl)
        rename_i fields
        cases hcamp : (List.lookup "campaigns" fields).getD (Json.arr []) <;>
          simp only [Json.pyLen, pyIter, okBind, errorBind, pureEqOk] <;>
          try (exact rfl)
        · split
          · exact ⟨rfl, rfl, rfl, Or.inr rfl⟩
          · exact rfl
        · rename_i xs
          split
          · exact ⟨rfl, rfl, rfl, Or.inr rfl⟩
          · cases hmap : xs.mapM KH.campaign_line <;>
              simp only [okBind, errorBind, pureEqOk]
            · exact rfl
            · exact ⟨rfl, rfl, rfl, Or.inl rfl⟩
        · split
          · exact ⟨rfl, rfl, rfl, Or.inr rfl⟩
          · exact rfl
      · simp only [if_neg hc]
        exact ⟨rfl, rfl, rfl, Or.inl rfl⟩

theorem warn_header_emoji (t l : String) (lines : List String) :
    String.intercalate "\n"
      (("⚠️  " ++ t ++ " registration failure(s) found. First " ++ l ++ ":") :: lines) =
    "⚠️  " ++ String.intercalate "\n"
      ((t ++ " registration failure(s) found. First " ++ l ++ ":") :: lines) := by
  have h1 : "⚠️  " ++ t ++ " registration failure(s) found. First " ++ l ++ ":" =
      "⚠️  " ++ (t ++ " registration failure(s) found. First " ++ l ++ ":") := by
    simp only [String.append_assoc]
  rw [h1, intercalate_cons_left]

theorem entity_failures_body_rel (resp : Response) :
    WarnRelE (KH.check_entity_failures_body resp) (App.check_entity_failures_body resp) := by
  unfold KH.check_entity_failures_body App.check_entity_failures_body
  rw [app_failure_line_eq]
  cases hj : resp.jsonBody <;> simp only [okBind, errorBind, pureEqOk]
  case error => exact rfl
  case ok data =>
    cases data <;> simp only [pyDictGet, pyDictGetD, okBind, errorBind] <;>
      try (exact rfl)
    case obj kvs =>
      by_cases hc : pyEqStr (List.lookup "status" kvs) "success" = true
      · simp only [if_pos hc]
        cases hres : (List.lookup "result" kvs).getD (Json.obj []) <;>
          simp only [pyDictGetD, okBind, errorBind, pureEqOk] <;> try (exact rfl)
        rename_i fields
        split
        · exact ⟨rfl, rfl, rfl, Or.inl rfl⟩
        · cases hregs : (List.lookup "entity_registrations" fields).getD (Json.arr []) <;>
            simp only [pySlice, okBind, errorBind, pureEqOk] <;> try (exact rfl)
          rename_i xs
          cases hmap : (xs.take 5).mapM KH.failure_line <;>
            simp only [okBind, errorBind, pureEqOk]
          · exact rfl
          · exact ⟨rfl, rfl, rfl, Or.inr (warn_header_emoji _ _ _)⟩
      · simp only [if_neg hc]
        exact ⟨rfl, rfl, rfl, Or.inl rfl⟩

theorem active_bidders_body_rel (resp : Response) :
    WarnRelE (KH.check_active_bidders_body resp) (App.check_active_bidders_body resp) := by
  unfold KH.check_active_bidders_body App.check_active_bidders_body
  cases hj : resp.jsonBody <;> simp only [okBind, errorBind, pureEqOk]
  case error => exact rfl
  case ok data =>
    cases data <;> simp only [pyDictGet, pyDictGetD, okBind, errorBind] <;>
      try (exact rfl)
    case obj kvs =>
      by_cases hc : pyEqStr (List.lookup "status" kvs) "success" = true
      · simp only [if_pos hc]
        cases hres : (List.lookup "result" kvs).getD (Json.obj []) <;>
          simp only [pyDictGetD, okBind, errorBind, pureEqOk] <;> try (exact rfl)
        rename_i fields
        cases hbid : (List.lookup "active_bidders" fields).getD (Json.arr []) <;>
          simp only [Json.pyTruthy, Json.pyLen, okBind, errorBind, pureEqOk,
            reduceIte] <;>
          first
            | exact rfl
            | exact ⟨rfl, rfl, rfl, Or.inl rfl⟩
            | exact ⟨rfl, rfl, rfl, Or.inr rfl⟩
            | (split <;>
                first
                  | exact rfl
                  | exact ⟨rfl, rfl, rfl, Or.inl rfl⟩
                  | exact ⟨rfl, rfl, rfl, Or.inr rfl⟩)
      · simp only [if_neg hc]
        exact ⟨rfl, rfl, rfl, Or.inl rfl⟩

theorem attributable_entities_body_rel (resp : Response) :
    WarnRelE (KH.check_attributable_entities_body resp)
      (App.check_attributable_entities_body resp) := by
  unfold KH.check_attributable_entities_body App.check_attributable_entities_body
  cases hj : resp.jsonBody <;> simp only [okBind, errorBind, pureEqOk]
  case error => exact rfl
  case ok data =>
    cases data <;> simp only [pyDictGet, pyDictGetD, okBind, errorBind] <;>
      try (exact rfl)
    case obj kvs =>
      by_cases hc : pyEqStr (List.lookup "status" kvs) "success" = true
      · simp only [if_pos hc]
        cases hres : (List.lookup "result" kvs).getD (Json.obj []) <;>
          simp only [pyDictGetD, okBind, errorBind, pureEqOk] <;> try (exact rfl)
        rename_i fields
        cases hent : (List.lookup "attributable_entities" fields).getD (Json.arr []) <;>
          simp only [Json.pyTruthy, Json.pyLen, okBind, errorBind, pureEqOk,
            reduceIte] <;>
          first
            | exact rfl
            | exact ⟨rfl, rfl, rfl, Or.inl rfl⟩
            | exact ⟨rfl, rfl, rfl, Or.inr rfl⟩
            | (split <;>
                first
                  | exact rfl
                  | exact ⟨rfl, rfl, rfl, Or.inl rfl⟩
                  | exact ⟨rfl, rfl, rfl, Or.inr rfl⟩)
      · simp only [if_neg hc]
        exact ⟨rfl, rfl, rfl, Or.inl rfl⟩

theorem check_campaigns_rel (o : HttpOutcome) :
    WarnRel (KH.check_campaigns o) (App.check_campaigns o) := by
  cases o with
  | timeout => exact ⟨rfl, rfl, rfl, Or.inl rfl⟩
  | connectError => exact ⟨rfl, rfl, rfl, Or.inl rfl⟩
  | exn m => exact ⟨rfl, rfl, rfl, Or.inl rfl⟩
  | ok resp =>
    have hrel := campaigns_body_rel resp
    simp only [KH.check_campaigns, App.check_campaigns]
    cases hbK : KH.check_campaigns_body resp <;>
      cases hbA : App.check_campaigns_body resp <;> rw [hbK, hbA] at hrel
    · cases hrel; exact ⟨rfl, rfl, rfl, Or.inl rfl⟩
    · exact hrel.elim
    · exact hrel.elim
    · exact hrel

theorem check_entity_failures_rel (o : HttpOutcome) :
    WarnRel (KH.check_entity_failures o) (App.check_entity_failures o) := by
  cases o with
  | timeout => exact ⟨rfl, rfl, rfl, Or.inl rfl⟩
  | connectError => exact ⟨rfl, rfl, rfl, Or.inl rfl⟩
  | exn m => exact ⟨rfl, rfl, rfl, Or.inl rfl⟩
  | ok resp =>
    have hrel := entity_failures_body_rel resp
    simp only [KH.check_entity_failures, App.check_entity_failures]
    cases hbK : KH.check_entity_failures_body resp <;>
      cases hbA : App.check_entity_failures_body resp <;> rw [hbK, hbA] at hrel
    · cases hrel; exact ⟨rfl, rfl, rfl, Or.inl rfl⟩
    · exact hrel.elim
    · exact hrel.elim
    · exact hrel

theorem check_active_bidders_rel (o : HttpOutcome) :
    WarnRel (KH.check_active_bidders o) (App.check_active_bidders o) := by
  cases o with
  | timeout => exact ⟨rfl, rfl, rfl, Or.inl rfl⟩
  | connectError => exact ⟨rfl, rfl, rfl, Or.inl rfl⟩
  | exn m => exact ⟨rfl, rfl, rfl, Or.inl rfl⟩
  | ok resp =>
    have hrel := active_bidders_body_rel resp
    simp only [KH.check_active_bidders, App.check_active_bidders]
    cases hbK : KH.check_active_bidders_body resp <;>
      cases hbA : App.check_active_bidders_body resp <;> rw [hbK, hbA] at hrel
    · cases hrel; exact ⟨rfl, rfl, rfl, Or.inl rfl⟩
    · exact hrel.elim
    · exact hrel.elim
    · exact hrel

theorem check_attributable_entities_rel (o : HttpOutcome) :
    WarnRel (KH.check_attributable_entities o) (App.check_attributable_entities o) := by
  cases o with
  | timeout => exact ⟨rfl, rfl, rfl, Or.inl rfl⟩
  | connectError => exact ⟨rfl, rfl, rfl, Or.inl rfl⟩
  | exn m => exact ⟨rfl, rfl, rfl, Or.inl rfl⟩
  | ok resp =>
    have hrel := attributable_entities_body_rel resp
    simp only [KH.check_attributable_entities, App.check_attributable_entities]
    cases hbK : KH.check_attributable_entities_body resp <;>
      cases hbA : App.check_attributable_entities_body resp <;> rw [hbK, hbA] at hrel
    · cases hrel; exact ⟨rfl, rfl, rfl, Or.inl rfl⟩
    · exact hrel.elim
    · exact hrel.elim
    · exact hrel

theorem KH.run_token_none (cfg : RunConfig) (oracle : Nat → HttpOutcome)
    (h : (KH.check_auth (oracle 0)).2 = none) :
    KH.run cfg oracle =
      { results :=
          [(KH.check_auth (oracle 0)).1,
           ⟨2, "Advertiser Exists", Status.SKIPPED, "Skipped — authentication failed"⟩,
           ⟨3, "Campaigns Report", Status.SKIPPED, "Skipped — authentication failed"⟩,
           ⟨4, "Entity Registration Failures", Status.SKIPPED,
             "Skipped — authentication failed"⟩,
           ⟨5, "Active Bidders Cache", Status.SKIPPED, "Skipped — authentication failed"⟩,
           ⟨6, "Attributable Entities Cache", Status.SKIPPED,
             "Skipped — authentication failed"⟩,
           KH.check_winning_ads cfg.client_name (oracle 1)],
        requests :=
          [KH.check_auth_request (pyRstripSlash cfg.base_url) cfg,
           KH.check_winning_ads_request cfg],
        has_failure :=
          ((KH.check_auth (oracle 0)).1.status == Status.FAIL) ||
          ((KH.check_winning_ads cfg.client_name (oracle 1)).status == Status.FAIL) } := by
  unfold KH.run
  cases hA : KH.check_auth (oracle 0) with
  | mk r1 tok =>
    rw [hA] at h
    cases tok with
    | none => rfl
    | some t => exact Option.noConfusion h

theorem KH.run_adv_fail (cfg : RunConfig) (oracle : Nat → HttpOutcome) (t : Json)
    (h1 : (KH.check_auth (oracle 0)).2 = some t)
    (h2 : (KH.check_advertiser (oracle 1)).status = Status.FAIL) :
    KH.run cfg oracle =
      { results :=
          [(KH.check_auth (oracle 0)).1, KH.check_advertiser (oracle 1),
           ⟨3, "Campaigns Report", Status.SKIPPED, "Skipped — advertiser check failed"⟩,
           ⟨4, "Entity Registration Failures", Status.SKIPPED,
             "Skipped — advertiser check failed"⟩,
           KH.check_active_bidders (oracle 2),
           KH.check_attributable_entities (oracle 3),
           KH.check_winning_ads cfg.client_name (oracle 4)],
        requests :=
          [KH.check_auth_request (pyRstripSlash cfg.base_url) cfg,
           KH.check_advertiser_request (pyRstripSlash cfg.base_url) cfg t,
           KH.check_active_bidders_request (pyRstripSlash cfg.base_url) cfg t,
           KH.check_attributable_entities_request (pyRstripSlash cfg.base_url) cfg t,
           KH.check_winning_ads_request cfg],
        has_failure :=
          ((KH.check_auth (oracle 0)).1.status == Status.FAIL) ||
          ((KH.check_advertiser (oracle 1)).status == Status.FAIL) ||
          ((KH.check_active_bidders (oracle 2)).status == Status.FAIL) ||
          ((KH.check_attributable_entities (oracle 3)).status == Status.FAIL) ||
          ((KH.check_winning_ads cfg.client_name (oracle 4)).status == Status.FAIL) } := by
  unfold KH.run
  cases hA : KH.check_auth (oracle 0) with
  | mk r1 tok =>
    rw [hA] at h1
    cases tok with
    | none => exact Option.noConfusion h1
    | some t2 =>
      injection h1 with h1e
      subst h1e
      simp only [h2, beq_self_eq_true, if_true]

theorem KH.run_adv_ok (cfg : RunConfig) (oracle : Nat → HttpOutcome) (t : Json)
    (h1 : (KH.check_auth (oracle 0)).2 = some t)
    (h2 : (KH.check_advertiser (oracle 1)).status ≠ Status.FAIL) :
    KH.run cfg oracle =
      { results :=
          [(KH.check_auth (oracle 0)).1, KH.check_advertiser (oracle 1),
           KH.check_campaigns (oracle 2), KH.check_entity_failures (oracle 3),
           KH.check_active_bidders (oracle 4),
           KH.check_attributable_entities (oracle 5),
           KH.check_winning_ads cfg.client_name (oracle 6)],
        requests :=
          [KH.check_auth_request (pyRstripSlash cfg.base_url) cfg,
           KH.check_advertiser_request (pyRstripSlash cfg.base_url) cfg t,
           KH.check_campaigns_request (pyRstripSlash cfg.base_url) cfg t,
           KH.check_entity_failures_request (pyRstripSlash cfg.base_url) cfg t,
           KH.check_active_bidders_request (pyRstripSlash cfg.base_url) cfg t,
           KH.check_attributable_entities_request (pyRstripSlash cfg.base_url) cfg t,
           KH.check_winning_ads_request cfg],
        has_failure :=
          ((KH.check_auth (oracle 0)).1.status == Status.FAIL) ||
          ((KH.check_advertiser (oracle 1)).status == Status.FAIL) ||
          ((KH.check_campaigns (oracle 2)).status == Status.FAIL) ||
          ((KH.check_entity_failures (oracle 3)).status == Status.FAIL) ||
          ((KH.check_active_bidders (oracle 4)).status == Status.FAIL) ||
          ((KH.check_attributable_entities (oracle 5)).status == Status.FAIL) ||
          ((KH.check_winning_ads cfg.client_name (oracle 6)).status == Status.FAIL) } := by
  unfold KH.run
  cases hA : KH.check_auth (oracle 0) with
  | mk r1 tok =>
    rw [hA] at h1
    cases tok with
    | none => exact Option.noConfusion h1
    | some t2 =>
      injection h1 with h1e
      subst h1e
      have hcond : ((KH.check_advertiser (oracle 1)).status == Status.FAIL) = false := by
        simp only [beq_eq_false_iff_ne, ne_eq]
        exact h2
      simp only [hcond, Bool.false_eq_true, if_false]

theorem App.run_checks_token_none (cfg : RunConfig) (oracle : Nat → HttpOutcome)
    (h : (KH.check_auth (oracle 0)).2 = none) :
    App.run_checks cfg oracle =
      ([(KH.check_auth (oracle 0)).1,
        ⟨2, "Advertiser Exists", Status.SKIPPED, "Skipped — authentication failed"⟩,
        ⟨3, "Campaigns Report", Status.SKIPPED, "Skipped — authentication failed"⟩,
        ⟨4, "Entity Registration Failures", Status.SKIPPED,
          "Skipped — authentication failed"⟩,
        ⟨5, "Active Bidders Cache", Status.SKIPPED, "Skipped — authentication failed"⟩,
        ⟨6, "Attributable Entities Cache", Status.SKIPPED,
          "Skipped — authentication failed"⟩,
        App.check_winning_ads cfg.client_name (oracle 1)],
       [KH.check_auth_request (pyRstripSlash cfg.base_url) cfg,
        App.check_winning_ads_request cfg]) := by
  unfold App.run_checks
  rw [app_check_auth_eq]
  cases hA : KH.check_auth (oracle 0) with
  | mk r1 tok =>
    rw [hA] at h
    cases tok with
    | none => rfl
    | some t => exact Option.noConfusion h

theorem App.run_checks_adv_fail (cfg : RunConfig) (oracle : Nat → HttpOutcome) (t : Json)
    (h1 : (KH.check_auth (oracle 0)).2 = some t)
    (h2 : (KH.check_advertiser (oracle 1)).status = Status.FAIL) :
    App.run_checks cfg oracle =
      ([(KH.check_auth (oracle 0)).1, App.check_advertiser (oracle 1),
        ⟨3, "Campaigns Report", Status.SKIPPED, "Skipped — advertiser check failed"⟩,
        ⟨4, "Entity Registration Failures", Status.SKIPPED,
          "Skipped — advertiser check failed"⟩,
        App.check_active_bidders (oracle 2),
        App.check_attributable_entities (oracle 3),
        App.check_winning_ads cfg.client_name (oracle 4)],
       [KH.check_auth_request (pyRstripSlash cfg.base_url) cfg,
        KH.check_advertiser_request (pyRstripSlash cfg.base_url) cfg t,
        KH.check_active_bidders_request (pyRstripSlash cfg.base_url) cfg t,
        KH.check_attributable_entities_request (pyRstripSlash cfg.base_url) cfg t,
        App.check_winning_ads_request cfg]) := by
  unfold App.run_checks
  rw [app_check_auth_eq, app_check_advertiser_eq]
  cases hA : KH.check_auth (oracle 0) with
  | mk r1 tok =>
    rw [hA] at h1
    cases tok with
    | none => exact Option.noConfusion h1
    | some t2 =>
      injection h1 with h1e
      subst h1e
      simp only [h2, beq_self_eq_true, if_true]

theorem App.run_checks_adv_ok (cfg : RunConfig) (oracle : Nat → HttpOutcome) (t : Json)
    (h1 : (KH.check_auth (oracle 0)).2 = some t)
    (h2 : (KH.check_advertiser (oracle 1)).status ≠ Status.FAIL) :
    App.run_checks cfg oracle =
      ([(KH.check_auth (oracle 0)).1, App.check_advertiser (oracle 1),
        App.check_campaigns (oracle 2), App.check_entity_failures (oracle 3),
        App.check_active_bidders (oracle 4),
        App.check_attributable_entities (oracle 5),
        App.check_winning_ads cfg.client_name (oracle 6)],
       [KH.check_auth_request (pyRstripSlash cfg.base_url) cfg,
        KH.check_advertiser_request (pyRstripSlash cfg.base_url) cfg t,
        KH.check_campaigns_request (pyRstripSlash cfg.base_url) cfg t,
        KH.check_entity_failures_request (pyRstripSlash cfg.base_url) cfg t,
        KH.check_active_bidders_request (pyRstripSlash cfg.base_url) cfg t,
        KH.check_attributable_entities_request (pyRstripSlash cfg.base_url) cfg t,
        App.check_winning_ads_request cfg]) := by
  unfold App.run_checks
  rw [app_check_auth_eq, app_check_advertiser_eq]
  cases hA : KH.check_auth (oracle 0) with
  | mk r1 tok =>
    rw [hA] at h1
    cases tok with
    | none => exact Option.noConfusion h1
    | some t2 =>
      injection h1 with h1e
      subst h1e
      have hcond : ((KH.check_advertiser (oracle 1)).status == Status.FAIL) = false := by
        simp only [beq_eq_false_iff_ne, ne_eq]
        exact h2
      simp only [hcond, Bool.false_eq_true, if_false]

theorem App.check_auth_shape_web (o : HttpOutcome) :
    (App.check_auth o).1.number = 1 ∧ (App.check_auth o).1.name = "Authentication" ∧
    (App.check_auth o).1.status ≠ Status.SKIPPED ∧
    ((App.check_auth o).2 = none ↔ (App.check_auth o).1.status = Status.FAIL) := by
  rw [app_check_auth_eq]
  exact KH.check_auth_shape o

theorem App.check_advertiser_shape_web (o : HttpOutcome) :
    (App.check_advertiser o).number = 2 ∧
    (App.check_advertiser o).name = "Advertiser Exists" ∧
    (App.check_advertiser o).status ≠ Status.SKIPPED := by
  rw [app_check_advertiser_eq]
  exact KH.check_advertiser_shape o

theorem App.check_campaigns_shape_web (o : HttpOutcome) :
    (App.check_campaigns o).number = 3 ∧
    (App.check_campaigns o).name = "Campaigns Report" ∧
    (App.check_campaigns o).status ≠ Status.SKIPPED := by
  obtain ⟨hn, hm, hst, hd⟩ := check_campaigns_rel o
  have hs := KH.check_campaigns_shape o
  refine ⟨?_, ?_, ?_⟩
  · rw [← hn]; exact hs.1
  · rw [← hm]; exact hs.2.1
  · rw [← hst]; exact hs.2.2

theorem App.check_entity_failures_shape_web (o : HttpOutcome) :
    (App.check_entity_failures o).number = 4 ∧
    (App.check_entity_failures o).name = "Entity Registration Failures" ∧
    (App.check_entity_failures o).status ≠ Status.SKIPPED := by
  obtain ⟨hn, hm, hst, hd⟩ := check_entity_failures_rel o
  have hs := KH.check_entity_failures_shape o
  refine ⟨?_, ?_, ?_⟩
  · rw [← hn]; exact hs.1
  · rw [← hm]; exact hs.2.1
  · rw [← hst]; exact hs.2.2

theorem App.check_active_bidders_shape_web (o : HttpOutcome) :
    (App.check_active_bidders o).number = 5 ∧
    (App.check_active_bidders o).name = "Active Bidders Cache" ∧
    (App.check_active_bidders o).status ≠ Status.SKIPPED := by
  obtain ⟨hn, hm, hst, hd⟩ := check_active_bidders_rel o
  have hs := KH.check_active_bidders_shape o
  refine ⟨?_, ?_, ?_⟩
  · rw [← hn]; exact hs.1
  · rw [← hm]; exact hs.2.1
  · rw [← hst]; exact hs.2.2

theorem App.check_attributable_entities_shape_web (o : HttpOutcome) :
    (App.check_attributable_entities o).number = 6 ∧
    (App.check_attributable_entities o).name = "Attributable Entities Cache" ∧
    (App.check_attributable_entities o).status ≠ Status.SKIPPED := by
  obtain ⟨hn, hm, hst, hd⟩ := check_attributable_entities_rel o
  have hs := KH.check_attributable_entities_shape o
  refine ⟨?_, ?_, ?_⟩
  · rw [← hn]; exact hs.1
  · rw [← hm]; exact hs.2.1
  · rw [← hst]; exact hs.2.2

theorem App.check_winning_ads_shape_web (c : String) (o : HttpOutcome) :
    (App.check_winning_ads c o).number = 7 ∧
    (App.check_winning_ads c o).name = "Winning Ads (Test Auction)" ∧
    (App.check_winning_ads c o).status ≠ Status.SKIPPED := by
  rw [app_check_winning_ads_eq]
  exact KH.check_winning_ads_shape c o

theorem KH.run_has_failure_eq_any (cfg : RunConfig) (oracle : Nat → HttpOutcome) :
    (KH.run cfg oracle).has_failure =
      (KH.run cfg oracle).results.any (fun r => r.status == Status.FAIL) := by
  rcases htok : (KH.check_auth (oracle 0)).2 with _ | t
  · rw [KH.run_token_none cfg oracle htok]
    simp [List.any_cons, List.any_nil, Bool.or_assoc,
      show (Status.SKIPPED == Status.FAIL) = false from rfl]
  · by_cases hfail : (KH.check_advertiser (oracle 1)).status = Status.FAIL
    · rw [KH.run_adv_fail cfg oracle t htok hfail]
      simp [List.any_cons, List.any_nil, Bool.or_assoc,
        show (Status.SKIPPED == Status.FAIL) = false from rfl]
    · rw [KH.run_adv_ok cfg oracle t htok hfail]
      simp [List.any_cons, List.any_nil, Bool.or_assoc]

theorem warnRel_refl (a : CheckResult) : WarnRel a a := ⟨rfl, rfl, rfl, Or.inl rfl⟩

theorem pyEqStr_success_false (o : Option Json) (h : o ≠ some (Json.str "success")) :
    pyEqStr o "success" = false := by
  cases o with
  | none => rfl
  | some j =>
    cases j <;> try rfl
    case str s =>
      simp only [pyEqStr, beq_eq_false_iff_ne, ne_eq]
      intro hs
      exact h (by rw [hs])

theorem mapM_ok_length {α β : Type} (f : α → Except String β) :
    ∀ (xs : List α) (ys : List β), xs.mapM f = Except.ok ys → ys.length = xs.length := by
  intro xs
  induction xs with
  | nil =>
    intro ys h
    injection h with h2
    rw [← h2]
    simp
  | cons a as ih =>
    intro ys h
    rw [List.mapM_cons] at h
    cases hfa : f a <;> rw [hfa] at h <;>
      simp only [okBind, errorBind, pureEqOk] at h
    · cases h
    · cases hmas : as.mapM f <;> rw [hmas] at h <;>
        simp only [okBind, errorBind, pureEqOk] at h
      · cases h
      · injection h with h2
        rw [← h2]
        simp [ih _ hmas]

/-- C1: in every CLI or web run in which Check 1 fails (equivalently, yields
no session token — the two conditions coincide for `check_auth`), checks 2–6
are recorded as SKIPPED with details naming "authentication failed", the only
HTTP requests issued are the login request and the test-auction request (none
for checks 2–6), and Check 7 is still executed on the next transport outcome,
its result never being SKIPPED. -/
theorem auth_failure_skips_checks_two_to_six (cfg : RunConfig)
    (oracle : Nat → HttpOutcome)
    (h : (KH.check_auth (oracle 0)).1.status = Status.FAIL ∨
      (KH.check_auth (oracle 0)).2 = none) :
    (KH.run cfg oracle).results =
      [(KH.check_auth (oracle 0)).1,
       ⟨2, "Advertiser Exists", Status.SKIPPED, "Skipped — authentication failed"⟩,
       ⟨3, "Campaigns Report", Status.SKIPPED, "Skipped — authentication failed"⟩,
       ⟨4, "Entity Registration Failures", Status.SKIPPED,
         "Skipped — authentication failed"⟩,
       ⟨5, "Active Bidders Cache", Status.SKIPPED, "Skipped — authentication failed"⟩,
       ⟨6, "Attributable Entities Cache", Status.SKIPPED,
         "Skipped — authentication failed"⟩,
       KH.check_winning_ads cfg.client_name (oracle 1)] ∧
    (KH.run cfg oracle).requests =
      [KH.check_auth_request (pyRstripSlash cfg.base_url) cfg,
       KH.check_winning_ads_request cfg] ∧
    (KH.check_winning_ads cfg.client_name (oracle 1)).status ≠ Status.SKIPPED ∧
    (App.run_checks cfg oracle).1 =
      [(KH.check_auth (oracle 0)).1,
       ⟨2, "Advertiser Exists", Status.SKIPPED, "Skipped — authentication failed"⟩,
       ⟨3, "Campaigns Report", Status.SKIPPED, "Skipped — authentication failed"⟩,
       ⟨4, "Entity Registration Failures", Status.SKIPPED,
         "Skipped — authentication failed"⟩,
       ⟨5, "Active Bidders Cache", Status.SKIPPED, "Skipped — authentication failed"⟩,
       ⟨6, "Attributable Entities Cache", Status.SKIPPED,
         "Skipped — authentication failed"⟩,
       App.check_winning_ads cfg.client_name (oracle 1)] ∧
    (App.run_checks cfg oracle).2 =
      [KH.check_auth_request (pyRstripSlash cfg.base_url) cfg,
       App.check_winning_ads_request cfg] := by
  have htok : (KH.check_auth (oracle 0)).2 = none := by
    rcases h with h | h
    · exact (KH.check_auth_shape (oracle 0)).2.2.2.mpr h
    · exact h
  rw [KH.run_token_none cfg oracle htok, App.run_checks_token_none cfg oracle htok]
  exact ⟨rfl, rfl, (KH.check_winning_ads_shape cfg.client_name (oracle 1)).2.2,
    rfl, rfl⟩

theorem auth_failure_skips_checks_two_to_six_witness :
    (KH.run sampleConfig oracleLoginError).results =
      [(KH.check_auth (oracleLoginError 0)).1,
       ⟨2, "Advertiser Exists", Status.SKIPPED, "Skipped — authentication failed"⟩,
       ⟨3, "Campaigns Report", Status.SKIPPED, "Skipped — authentication failed"⟩,
       ⟨4, "Entity Registration Failures", Status.SKIPPED,
         "Skipped — authentication failed"⟩,
       ⟨5, "Active Bidders Cache", Status.SKIPPED, "Skipped — authentication failed"⟩,
       ⟨6, "Attributable Entities Cache", Status.SKIPPED,
         "Skipped — authentication failed"⟩,
       KH.check_winning_ads sampleConfig.client_name (oracleLoginError 1)] ∧
    (KH.run sampleConfig oracleLoginError).requests =
      [KH.check_auth_request (pyRstripSlash sampleConfig.base_url) sampleConfig,
       KH.check_winning_ads_request sampleConfig] ∧
    (KH.check_winning_ads sampleConfig.client_name (oracleLoginError 1)).status ≠
      Status.SKIPPED ∧
    (App.run_checks sampleConfig oracleLoginError).1 =
      [(KH.check_auth (oracleLoginError 0)).1,
       ⟨2, "Advertiser Exists", Status.SKIPPED, "Skipped — authentication failed"⟩,
       ⟨3, "Campaigns Report", Status.SKIPPED, "Skipped — authentication failed"⟩,
       ⟨4, "Entity Registration Failures", Status.SKIPPED,
         "Skipped — authentication failed"⟩,
       ⟨5, "Active Bidders Cache", Status.SKIPPED, "Skipped — authentication failed"⟩,
       ⟨6, "Attributable Entities Cache", Status.SKIPPED,
         "Skipped — authentication failed"⟩,
       App.check_winning_ads sampleConfig.client_name (oracleLoginError 1)] ∧
    (App.run_checks sampleConfig oracleLoginError).2 =
      [KH.check_auth_request (pyRstripSlash sampleConfig.base_url) sampleConfig,
       App.check_winning_ads_request sampleConfig] :=
  auth_failure_skips_checks_two_to_six sampleConfig oracleLoginError (Or.inr rfl)

/-- C2: in every CLI or web run in which Check 1 yields a token and Check 2
fails, checks 3 and 4 are recorded as SKIPPED with details naming "advertiser
check failed" and their endpoints are never requested, while checks 5 and 6
are still executed on fresh transport outcomes (their results are never
SKIPPED), gated only on authentication. -/
theorem advertiser_failure_skips_checks_three_four (cfg : RunConfig)
    (oracle : Nat → HttpOutcome) (t : Json)
    (h1 : (KH.check_auth (oracle 0)).2 = some t)
    (h2 : (KH.check_advertiser (oracle 1)).status = Status.FAIL) :
    (KH.run cfg oracle).results =
      [(KH.check_auth (oracle 0)).1, KH.check_advertiser (oracle 1),
       ⟨3, "Campaigns Report", Status.SKIPPED, "Skipped — advertiser check failed"⟩,
       ⟨4, "Entity Registration Failures", Status.SKIPPED,
         "Skipped — advertiser check failed"⟩,
       KH.check_active_bidders (oracle 2),
       KH.check_attributable_entities (oracle 3),
       KH.check_winning_ads cfg.client_name (oracle 4)] ∧
    (KH.run cfg oracle).requests =
      [KH.check_auth_request (pyRstripSlash cfg.base_url) cfg,
       KH.check_advertiser_request (pyRstripSlash cfg.base_url) cfg t,
       KH.check_active_bidders_request (pyRstripSlash cfg.base_url) cfg t,
       KH.check_attributable_entities_request (pyRstripSlash cfg.base_url) cfg t,
       KH.check_winning_ads_request cfg] ∧
    (KH.check_active_bidders (oracle 2)).status ≠ Status.SKIPPED ∧
    (KH.check_attributable_entities (oracle 3)).status ≠ Status.SKIPPED ∧
    (App.run_checks cfg oracle).1 =
      [(KH.check_auth (oracle 0)).1, App.check_advertiser (oracle 1),
       ⟨3, "Campaigns Report", Status.SKIPPED, "Skipped — advertiser check failed"⟩,
       ⟨4, "Entity Registration Failures", Status.SKIPPED,
         "Skipped — advertiser check failed"⟩,
       App.check_active_bidders (oracle 2),
       App.check_attributable_entities (oracle 3),
       App.check_winning_ads cfg.client_name (oracle 4)] ∧
    (App.run_checks cfg oracle).2 =
      [KH.check_auth_request (pyRstripSlash cfg.base_url) cfg,
       KH.check_advertiser_request (pyRstripSlash cfg.base_url) cfg t,
       KH.check_active_bidders_request (pyRstripSlash cfg.base_url) cfg t,
       KH.check_attributable_entities_request (pyRstripSlash cfg.base_url) cfg t,
       App.check_winning_ads_request cfg] := by
  rw [KH.run_adv_fail cfg oracle t h1 h2, App.run_checks_adv_fail cfg oracle t h1 h2]
  exact ⟨rfl, rfl, (KH.check_active_bidders_shape (oracle 2)).2.2,
    (KH.check_attributable_entities_shape (oracle 3)).2.2, rfl, rfl⟩

theorem advertiser_failure_skips_checks_three_four_witness :
    (KH.run sampleConfig oracleAdvertiserError).results =
      [(KH.check_auth (oracleAdvertiserError 0)).1,
       KH.check_advertiser (oracleAdvertiserError 1),
       ⟨3, "Campaigns Report", Status.SKIPPED, "Skipped — advertiser check failed"⟩,
       ⟨4, "Entity Registration Failures", Status.SKIPPED,
         "Skipped — advertiser check failed"⟩,
       KH.check_active_bidders (oracleAdvertiserError 2),
       KH.check_attributable_entities (oracleAdvertiserError 3),
       KH.check_winning_ads sampleConfig.client_name (oracleAdvertiserError 4)] ∧
    (KH.run sampleConfig oracleAdvertiserError).requests =
      [KH.check_auth_request (pyRstripSlash sampleConfig.base_url) sampleConfig,
       KH.check_advertiser_request (pyRstripSlash sampleConfig.base_url) sampleConfig
         (Json.str "abc"),
       KH.check_active_bidders_request (pyRstripSlash sampleConfig.base_url) sampleConfig
         (Json.str "abc"),
       KH.check_attributable_entities_request (pyRstripSlash sampleConfig.base_url)
         sampleConfig (Json.str "abc"),
       KH.check_winning_ads_request sampleConfig] ∧
    (KH.check_active_bidders (oracleAdvertiserError 2)).status ≠ Status.SKIPPED ∧
    (KH.check_attributable_entities (oracleAdvertiserError 3)).status ≠
      Status.SKIPPED ∧
    (App.run_checks sampleConfig oracleAdvertiserError).1 =
      [(KH.check_auth (oracleAdvertiserError 0)).1,
       App.check_advertiser (oracleAdvertiserError 1),
       ⟨3, "Campaigns Report", Status.SKIPPED, "Skipped — advertiser check failed"⟩,
       ⟨4, "Entity Registration Failures", Status.SKIPPED,
         "Skipped — advertiser check failed"⟩,
       App.check_active_bidders (oracleAdvertiserError 2),
       App.check_attributable_entities (oracleAdvertiserError 3),
       App.check_winning_ads sampleConfig.client_name (oracleAdvertiserError 4)] ∧
    (App.run_checks sampleConfig oracleAdvertiserError).2 =
      [KH.check_auth_request (pyRstripSlash sampleConfig.base_url) sampleConfig,
       KH.check_advertiser_request (pyRstripSlash sampleConfig.base_url) sampleConfig
         (Json.str "abc"),
       KH.check_active_bidders_request (pyRstripSlash sampleConfig.base_url) sampleConfig
         (Json.str "abc"),
       KH.check_attributable_entities_request (pyRstripSlash sampleConfig.base_url)
         sampleConfig (Json.str "abc"),
       App.check_winning_ads_request sampleConfig] :=
  advertiser_failure_skips_checks_three_four sampleConfig oracleAdvertiserError
    (Json.str "abc") rfl rfl

/-- C3: in every CLI and web run, Check 7 is executed: the last recorded
result is `check_winning_ads` applied to a fresh transport outcome (so its
HTTP call is issued — the test-auction request is the last request of the
run), that result is never SKIPPED, and the test-auction request carries no
session token. -/
theorem check_seven_always_attempted (cfg : RunConfig) (oracle : Nat → HttpOutcome) :
    ∃ k : Nat,
      (KH.run cfg oracle).results.getLast? =
        some (KH.check_winning_ads cfg.client_name (oracle k)) ∧
      (KH.check_winning_ads cfg.client_name (oracle k)).status ≠ Status.SKIPPED ∧
      (KH.run cfg oracle).requests.getLast? = some (KH.check_winning_ads_request cfg) ∧
      (KH.check_winning_ads_request cfg).token = none ∧
      (App.run_checks cfg oracle).1.getLast? =
        some (App.check_winning_ads cfg.client_name (oracle k)) ∧
      (App.check_winning_ads cfg.client_name (oracle k)).status ≠ Status.SKIPPED ∧
      (App.run_checks cfg oracle).2.getLast? =
        some (App.check_winning_ads_request cfg) ∧
      (App.check_winning_ads_request cfg).token = none := by
  rcases htok : (KH.check_auth (oracle 0)).2 with _ | t
  · refine ⟨1, ?_, (KH.check_winning_ads_shape cfg.client_name (oracle 1)).2.2, ?_,
      rfl, ?_, (App.check_winning_ads_shape_web cfg.client_name (oracle 1)).2.2, ?_, rfl⟩
    · rw [KH.run_token_none cfg oracle htok]; rfl
    · rw [KH.run_token_none cfg oracle htok]; rfl
    · rw [App.run_checks_token_none cfg oracle htok]; rfl
    · rw [App.run_checks_token_none cfg oracle htok]; rfl
  · by_cases hfail : (KH.check_advertiser (oracle 1)).status = Status.FAIL
    · refine ⟨4, ?_, (KH.check_winning_ads_shape cfg.client_name (oracle 4)).2.2, ?_,
        rfl, ?_, (App.check_winning_ads_shape_web cfg.client_name (oracle 4)).2.2, ?_, rfl⟩
      · rw [KH.run_adv_fail cfg oracle t htok hfail]; rfl
      · rw [KH.run_adv_fail cfg oracle t htok hfail]; rfl
      · rw [App.run_checks_adv_fail cfg oracle t htok hfail]; rfl
      · rw [App.run_checks_adv_fail cfg oracle t htok hfail]; rfl
    · refine ⟨6, ?_, (KH.check_winning_ads_shape cfg.client_name (oracle 6)).2.2, ?_,
        rfl, ?_, (App.check_winning_ads_shape_web cfg.client_name (oracle 6)).2.2, ?_, rfl⟩
      · rw [KH.run_adv_ok cfg oracle t htok hfail]; rfl
      · rw [KH.run_adv_ok cfg oracle t htok hfail]; rfl
      · rw [App.run_checks_adv_ok cfg oracle t htok hfail]; rfl
      · rw [App.run_checks_adv_ok cfg oracle t htok hfail]; rfl

/-- C4: for every CLI run, the overall verdict computed by `results_to_json`
is `"fail"` exactly when some of the seven results has status FAIL (so a run
of only PASS/WARN/SKIPPED results yields `"pass"`), and the process exit code
is 0 exactly when the verdict is `"pass"` and 1 exactly when it is `"fail"`. -/
theorem overall_verdict_iff_some_fail (cfg : RunConfig) (oracle : Nat → HttpOutcome) :
    (KH.results_to_json_overall (KH.run cfg oracle).results = "fail" ↔
      ∃ r ∈ (KH.run cfg oracle).results, r.status = Status.FAIL) ∧
    ((∀ r ∈ (KH.run cfg oracle).results, r.status ≠ Status.FAIL) →
      KH.results_to_json_overall (KH.run cfg oracle).results = "pass") ∧
    (KH.exit_code (KH.run cfg oracle).has_failure = 0 ↔
      KH.results_to_json_overall (KH.run cfg oracle).results = "pass") ∧
    (KH.exit_code (KH.run cfg oracle).has_failure = 1 ↔
      KH.results_to_json_overall (KH.run cfg oracle).results = "fail") := by
  have hany := KH.run_has_failure_eq_any cfg oracle
  rcases hb : (KH.run cfg oracle).results.any (fun r => r.status == Status.FAIL) with _ | _
  · have hov : KH.results_to_json_overall (KH.run cfg oracle).results = "pass" := by
      unfold KH.results_to_json_overall
      rw [hb]
      rfl
    have hex : (KH.run cfg oracle).has_failure = false := by rw [hany, hb]
    have hnofail : ∀ r ∈ (KH.run cfg oracle).results, r.status ≠ Status.FAIL := by
      intro r hr
      have hc := List.any_eq_false.mp hb r hr
      simpa using hc
    refine ⟨?_, ?_, ?_, ?_⟩
    · rw [hov]
      exact iff_of_false (by decide) (fun ⟨r, hr, hst⟩ => hnofail r hr hst)
    · intro _
      exact hov
    · rw [hov]
      unfold KH.exit_code
      rw [hex]
      exact iff_of_true rfl rfl
    · rw [hov]
      unfold KH.exit_code
      rw [hex]
      exact iff_of_false (by decide) (by decide)
  · have hov : KH.results_to_json_overall (KH.run cfg oracle).results = "fail" := by
      unfold KH.results_to_json_overall
      rw [hb]
      rfl
    have hex : (KH.run cfg oracle).has_failure = true := by rw [hany, hb]
    have hfail : ∃ r ∈ (KH.run cfg oracle).results, r.status = Status.FAIL := by
      obtain ⟨r, hr, hst⟩ := List.any_eq_true.mp hb
      exact ⟨r, hr, by simpa using hst⟩
    refine ⟨?_, ?_, ?_, ?_⟩
    · rw [hov]
      exact iff_of_true rfl hfail
    · intro hall
      obtain ⟨r, hr, hst⟩ := hfail
      exact absurd hst (hall r hr)
    · rw [hov]
      unfold KH.exit_code
      rw [hex]
      exact iff_of_false (by decide) (by decide)
    · rw [hov]
      unfold KH.exit_code
      rw [hex]
      exact iff_of_true rfl rfl

/-- C5: every CLI and every web run produces exactly seven results, one per
check number 1 through 7, appended in ascending order, whatever the
configuration and whatever the transport does. -/
theorem seven_results_numbered_in_order (cfg : RunConfig) (oracle : Nat → HttpOutcome) :
    (KH.run cfg oracle).results.map CheckResult.number = [1, 2, 3, 4, 5, 6, 7] ∧
    (App.run_checks cfg oracle).1.map CheckResult.number = [1, 2, 3, 4, 5, 6, 7] := by
  rcases htok : (KH.check_auth (oracle 0)).2 with _ | t
  · rw [KH.run_token_none cfg oracle htok, App.run_checks_token_none cfg oracle htok]
    constructor
    · simp [(KH.check_auth_shape (oracle 0)).1,
        (KH.check_winning_ads_shape cfg.client_name (oracle 1)).1]
    · simp [(KH.check_auth_shape (oracle 0)).1,
        (App.check_winning_ads_shape_web cfg.client_name (oracle 1)).1]
  · by_cases hfail : (KH.check_advertiser (oracle 1)).status = Status.FAIL
    · rw [KH.run_adv_fail cfg oracle t htok hfail,
        App.run_checks_adv_fail cfg oracle t htok hfail]
      constructor
      · simp [(KH.check_auth_shape (oracle 0)).1,
          (KH.check_advertiser_shape (oracle 1)).1,
          (KH.check_active_bidders_shape (oracle 2)).1,
          (KH.check_attributable_entities_shape (oracle 3)).1,
          (KH.check_winning_ads_shape cfg.client_name (oracle 4)).1]
      · simp [(KH.check_auth_shape (oracle 0)).1,
          (App.check_advertiser_shape_web (oracle 1)).1,
          (App.check_active_bidders_shape_web (oracle 2)).1,
          (App.check_attributable_entities_shape_web (oracle 3)).1,
          (App.check_winning_ads_shape_web cfg.client_name (oracle 4)).1]
    · rw [KH.run_adv_ok cfg oracle t htok hfail,
        App.run_checks_adv_ok cfg oracle t htok hfail]
      constructor
      · simp [(KH.check_auth_shape (oracle 0)).1,
          (KH.check_advertiser_shape (oracle 1)).1,
          (KH.check_campaigns_shape (oracle 2)).1,
          (KH.check_entity_failures_shape (oracle 3)).1,
          (KH.check_active_bidders_shape (oracle 4)).1,
          (KH.check_attributable_entities_shape (oracle 5)).1,
          (KH.check_winning_ads_shape cfg.client_name (oracle 6)).1]
      · simp [(KH.check_auth_shape (oracle 0)).1,
          (App.check_advertiser_shape_web (oracle 1)).1,
          (App.check_campaigns_shape_web (oracle 2)).1,
          (App.check_entity_failures_shape_web (oracle 3)).1,
          (App.check_active_bidders_shape_web (oracle 4)).1,
          (App.check_attributable_entities_shape_web (oracle 5)).1,
          (App.check_winning_ads_shape_web cfg.client_name (oracle 6)).1]

/-- C6 counterexample: the envelope rule is not applied uniformly to Check 1.
On the scenario-B login error response, Check 1 is classified FAIL but its
details read "Login failed — code E401: bad credentials", not
"Error E401: bad credentials" as the uniform rule would require. -/
theorem envelope_rule_not_uniform_counterexample :
    (KH.check_auth loginError).1.status = Status.FAIL ∧
    (KH.check_auth loginError).1.details =
      "Login failed — code E401: bad credentials" ∧
    (KH.check_auth loginError).1.details ≠ "Error E401: bad credentials" := by
  decide

/-- C6 (amended): for checks 2 through 6, a parsed response object whose
top-level `status` field is not `"success"` is classified FAIL with details
exactly `"Error {error_code}: {error_message}"`, where `error_code` defaults
to `"unknown"` and `error_message` is taken from the `message` field, then
the `error` field, then `"unknown error"`; Check 1 applies the same
defaulting but formats its details as
`"Login failed — code {error_code}: {error_message}"` (and yields no token). -/
theorem envelope_error_classification (kvs : List (String × Json))
    (h : kvs.lookup "status" ≠ some (Json.str "success")) :
    (KH.check_advertiser (HttpOutcome.ok ⟨200, Except.ok (Json.obj kvs)⟩) =
      ⟨2, "Advertiser Exists", Status.FAIL,
        "Error " ++ ((kvs.lookup "error_code").getD (Json.str "unknown")).pyStr ++
        ": " ++ ((kvs.lookup "message").getD
          ((kvs.lookup "error").getD (Json.str "unknown error"))).pyStr⟩) ∧
    (KH.check_campaigns (HttpOutcome.ok ⟨200, Except.ok (Json.obj kvs)⟩) =
      ⟨3, "Campaigns Report", Status.FAIL,
        "Error " ++ ((kvs.lookup "error_code").getD (Json.str "unknown")).pyStr ++
        ": " ++ ((kvs.lookup "message").getD
          ((kvs.lookup "error").getD (Json.str "unknown error"))).pyStr⟩) ∧
    (KH.check_entity_failures (HttpOutcome.ok ⟨200, Except.ok (Json.obj kvs)⟩) =
      ⟨4, "Entity Registration Failures", Status.FAIL,
        "Error " ++ ((kvs.lookup "error_code").getD (Json.str "unknown")).pyStr ++
        ": " ++ ((kvs.lookup "message").getD
          ((kvs.lookup "error").getD (Json.str "unknown error"))).pyStr⟩) ∧
    (KH.check_active_bidders (HttpOutcome.ok ⟨200, Except.ok (Json.obj kvs)⟩) =
      ⟨5, "Active Bidders Cache", Status.FAIL,
        "Error " ++ ((kvs.lookup "error_code").getD (Json.str "unknown")).pyStr ++
        ": " ++ ((kvs.lookup "message").getD
          ((kvs.lookup "error").getD (Json.str "unknown error"))).pyStr⟩) ∧
    (KH.check_attributable_entities (HttpOutcome.ok ⟨200, Except.ok (Json.obj kvs)⟩) =
      ⟨6, "Attributable Entities Cache", Status.FAIL,
        "Error " ++ ((kvs.lookup "error_code").getD (Json.str "unknown")).pyStr ++
        ": " ++ ((kvs.lookup "message").getD
          ((kvs.lookup "error").getD (Json.str "unknown error"))).pyStr⟩) ∧
    (KH.check_auth (HttpOutcome.ok ⟨200, Except.ok (Json.obj kvs)⟩) =
      (⟨1, "Authentication", Status.FAIL,
        "Login failed — code " ++
        ((kvs.lookup "error_code").getD (Json.str "unknown")).pyStr ++ ": " ++
        ((kvs.lookup "message").getD
          ((kvs.lookup "error").getD (Json.str "unknown error"))).pyStr⟩, none)) := by
  have hc := pyEqStr_success_false _ h
  refine ⟨?_, ?_, ?_, ?_, ?_, ?_⟩
  · simp only [KH.check_advertiser, KH.check_advertiser_body, okBind, errorBind,
      pureEqOk, pyDictGet, pyDictGetD, hc, Bool.false_eq_true, if_false]
  · simp only [KH.check_campaigns, KH.check_campaigns_body, okBind, errorBind,
      pureEqOk, pyDictGet, pyDictGetD, hc, Bool.false_eq_true, if_false]
  · simp only [KH.check_entity_failures, KH.check_entity_failures_body, okBind,
      errorBind, pureEqOk, pyDictGet, pyDictGetD, hc, Bool.false_eq_true, if_false]
  · simp only [KH.check_active_bidders, KH.check_active_bidders_body, okBind,
      errorBind, pureEqOk, pyDictGet, pyDictGetD, hc, Bool.false_eq_true, if_false]
  · simp only [KH.check_attributable_entities, KH.check_attributable_entities_body,
      okBind, errorBind, pureEqOk, pyDictGet, pyDictGetD, hc, Bool.false_eq_true,
      if_false]
  · simp only [KH.check_auth, KH.check_auth_body, okBind, errorBind, pureEqOk,
      pyDictGet, pyDictGetD, hc, Bool.false_eq_true, if_false]

theorem envelope_error_classification_witness :
    KH.check_advertiser (HttpOutcome.ok ⟨200, Except.ok (Json.obj
        [("status", Json.str "error"), ("error_code", Json.str "E401"),
         ("message", Json.str "bad credentials")])⟩) =
      ⟨2, "Advertiser Exists", Status.FAIL, "Error E401: bad credentials"⟩ ∧
    KH.check_auth (HttpOutcome.ok ⟨200, Except.ok (Json.obj
        [("status", Json.str "error"), ("error_code", Json.str "E401"),
         ("message", Json.str "bad credentials")])⟩) =
      (⟨1, "Authentication", Status.FAIL,
        "Login failed — code E401: bad credentials"⟩, none) := by
  have happ := envelope_error_classification
    [("status", Json.str "error"), ("error_code", Json.str "E401"),
     ("message", Json.str "bad credentials")] (by simp [List.lookup])
  exact ⟨happ.1.trans (by rfl), happ.2.2.2.2.2.trans (by rfl)⟩

/-- C7 counterexample: on a connection failure, Check 1's details are the
fixed string "Connection error — cannot reach API"; they do not name the
unreachable host (the host of the default console base URL, `koddi.io`, does
not occur in them — the detail is independent of the configured base URL). -/
theorem check_one_connect_detail_lacks_host_counterexample :
    (KH.check_auth HttpOutcome.connectError).1.details =
      "Connection error — cannot reach API" ∧
    ¬ ("koddi.io".toList <:+:
        (KH.check_auth HttpOutcome.connectError).1.details.toList) := by
  constructor
  · rfl
  · decide

/-- C7 (amended): for every check, a transport timeout is classified FAIL
with details "Request timed out"; a connection failure is classified FAIL
with details exactly "Connection error" for checks 2–6, "Connection error —
cannot reach API" for Check 1 (a fixed string that does not name the host),
and "Connection error — cannot reach {client_name}.koddi.io" for Check 7
(which does name the host); any other exception is classified FAIL with
details "Unexpected error: {message}".  Each classifier is a total function,
so no exception propagates out of a check. -/
theorem transport_failure_classification (client_name m : String) :
    (KH.check_auth HttpOutcome.timeout =
      (⟨1, "Authentication", Status.FAIL, "Request timed out"⟩, none)) ∧
    (KH.check_auth HttpOutcome.connectError =
      (⟨1, "Authentication", Status.FAIL,
        "Connection error — cannot reach API"⟩, none)) ∧
    (KH.check_auth (HttpOutcome.exn m) =
      (⟨1, "Authentication", Status.FAIL, "Unexpected error: " ++ m⟩, none)) ∧
    (KH.check_advertiser HttpOutcome.timeout =
      ⟨2, "Advertiser Exists", Status.FAIL, "Request timed out"⟩) ∧
    (KH.check_advertiser HttpOutcome.connectError =
      ⟨2, "Advertiser Exists", Status.FAIL, "Connection error"⟩) ∧
    (KH.check_advertiser (HttpOutcome.exn m) =
      ⟨2, "Advertiser Exists", Status.FAIL, "Unexpected error: " ++ m⟩) ∧
    (KH.check_campaigns HttpOutcome.timeout =
      ⟨3, "Campaigns Report", Status.FAIL, "Request timed out"⟩) ∧
    (KH.check_campaigns HttpOutcome.connectError =
      ⟨3, "Campaigns Report", Status.FAIL, "Connection error"⟩) ∧
    (KH.check_campaigns (HttpOutcome.exn m) =
      ⟨3, "Campaigns Report", Status.FAIL, "Unexpected error: " ++ m⟩) ∧
    (KH.check_entity_failures HttpOutcome.timeout =
      ⟨4, "Entity Registration Failures", Status.FAIL, "Request timed out"⟩) ∧
    (KH.check_entity_failures HttpOutcome.connectError =
      ⟨4, "Entity Registration Failures", Status.FAIL, "Connection error"⟩) ∧
    (KH.check_entity_failures (HttpOutcome.exn m) =
      ⟨4, "Entity Registration Failures", Status.FAIL, "Unexpected error: " ++ m⟩) ∧
    (KH.check_active_bidders HttpOutcome.timeout =
      ⟨5, "Active Bidders Cache", Status.FAIL, "Request timed out"⟩) ∧
    (KH.check_active_bidders HttpOutcome.connectError =
      ⟨5, "Active Bidders Cache", Status.FAIL, "Connection error"⟩) ∧
    (KH.check_active_bidders (HttpOutcome.exn m) =
      ⟨5, "Active Bidders Cache", Status.FAIL, "Unexpected error: " ++ m⟩) ∧
    (KH.check_attributable_entities HttpOutcome.timeout =
      ⟨6, "Attributable Entities Cache", Status.FAIL, "Request timed out"⟩) ∧
    (KH.check_attributable_entities HttpOutcome.connectError =
      ⟨6, "Attributable Entities Cache", Status.FAIL, "Connection error"⟩) ∧
    (KH.check_attributable_entities (HttpOutcome.exn m) =
      ⟨6, "Attributable Entities Cache", Status.FAIL, "Unexpected error: " ++ m⟩) ∧
    (KH.check_winning_ads client_name HttpOutcome.timeout =
      ⟨7, "Winning Ads (Test Auction)", Status.FAIL, "Request timed out"⟩) ∧
    (KH.check_winning_ads client_name HttpOutcome.connectError =
      ⟨7, "Winning Ads (Test Auction)", Status.FAIL,
        "Connection error — cannot reach " ++ client_name ++ ".koddi.io"⟩) ∧
    (KH.check_winning_ads client_name (HttpOutcome.exn m) =
      ⟨7, "Winning Ads (Test Auction)", Status.FAIL, "Unexpected error: " ++ m⟩) :=
  ⟨rfl, rfl, rfl, rfl, rfl, rfl, rfl, rfl, rfl, rfl, rfl, rfl, rfl, rfl, rfl,
   rfl, rfl, rfl, rfl, rfl, rfl⟩

/-- C8: for a campaigns-report response with a success envelope whose
`result` object carries a numeric `total` and a list of campaigns, Check 3
yields WARN when `total` is 0 — with details "Zero campaigns found for this
advertiser", which the CLI prefixes with a warning emoji — and otherwise
yields PASS whose details start with the header "Found {total} campaign(s)"
followed by one formatted line per campaign (`clines`, one line per element
of the campaigns list), identically in the CLI and the web front end. -/
theorem campaigns_zero_warn_otherwise_pass (kvs res : List (String × Json))
    (cs : List Json) (t : Int) (clines : List String)
    (hstatus : kvs.lookup "status" = some (Json.str "success"))
    (hres : kvs.lookup "result" = some (Json.obj res))
    (hcamp : res.lookup "campaigns" = some (Json.arr cs))
    (htotal : res.lookup "total" = some (Json.num t))
    (hlines : cs.mapM KH.campaign_line = Except.ok clines) :
    (t = 0 →
      KH.check_campaigns (HttpOutcome.ok ⟨200, Except.ok (Json.obj kvs)⟩) =
        ⟨3, "Campaigns Report", Status.WARN,
          "⚠️  Zero campaigns found for this advertiser"⟩ ∧
      App.check_campaigns (HttpOutcome.ok ⟨200, Except.ok (Json.obj kvs)⟩) =
        ⟨3, "Campaigns Report", Status.WARN,
          "Zero campaigns found for this advertiser"⟩) ∧
    (t ≠ 0 →
      KH.check_campaigns (HttpOutcome.ok ⟨200, Except.ok (Json.obj kvs)⟩) =
        ⟨3, "Campaigns Report", Status.PASS,
          String.intercalate "\n"
            (("Found " ++ toString t ++ " campaign(s)") :: clines)⟩ ∧
      App.check_campaigns (HttpOutcome.ok ⟨200, Except.ok (Json.obj kvs)⟩) =
        ⟨3, "Campaigns Report", Status.PASS,
          String.intercalate "\n"
            (("Found " ++ toString t ++ " campaign(s)") :: clines)⟩) ∧
    clines.length = cs.length := by
  refine ⟨?_, ?_, mapM_ok_length KH.campaign_line cs clines hlines⟩
  · intro ht
    subst ht
    constructor
    · simp only [KH.check_campaigns, KH.check_campaigns_body, okBind, errorBind,
        pureEqOk, pyDictGet, pyDictGetD, pyIter, Json.pyLen, Json.pyEqInt,
        hstatus, hres, hcamp, htotal, Option.getD_some, pyEqStr, beq_self_eq_true,
        if_true]
    · simp only [App.check_campaigns, App.check_campaigns_body, okBind, errorBind,
        pureEqOk, pyDictGet, pyDictGetD, pyIter, Json.pyLen, Json.pyEqInt,
        hstatus, hres, hcamp, htotal, Option.getD_some, pyEqStr, beq_self_eq_true,
        if_true]
  · intro ht
    have hne : ((t : Int) == 0) = false := beq_eq_false_iff_ne.mpr ht
    constructor
    · simp only [KH.check_campaigns, KH.check_campaigns_body, okBind, errorBind,
        pureEqOk, pyDictGet, pyDictGetD, pyIter, Json.pyLen, Json.pyEqInt,
        hstatus, hres, hcamp, htotal, hlines, Option.getD_some, pyEqStr,
        beq_self_eq_true, if_true, hne, Bool.false_eq_true, if_false, Json.pyStr]
    · simp only [App.check_campaigns, App.check_campaigns_body, okBind, errorBind,
        pureEqOk, pyDictGet, pyDictGetD, pyIter, Json.pyLen, Json.pyEqInt,
        app_campaign_line_eq, hstatus, hres, hcamp, htotal, hlines,
        Option.getD_some, pyEqStr, beq_self_eq_true, if_true, hne,
        Bool.false_eq_true, if_false, Json.pyStr]

theorem campaigns_zero_warn_otherwise_pass_witness :
    (KH.check_campaigns (HttpOutcome.ok ⟨200, Except.ok (Json.obj
        [("status", Json.str "success"),
         ("result", Json.obj [("campaigns", Json.arr []), ("total", Json.num 0)])])⟩) =
      ⟨3, "Campaigns Report", Status.WARN,
        "⚠️  Zero campaigns found for this advertiser"⟩ ∧
     App.check_campaigns (HttpOutcome.ok ⟨200, Except.ok (Json.obj
        [("status", Json.str "success"),
         ("result", Json.obj [("campaigns", Json.arr []), ("total", Json.num 0)])])⟩) =
      ⟨3, "Campaigns Report", Status.WARN,
        "Zero campaigns found for this advertiser"⟩) ∧
    (KH.check_campaigns (HttpOutcome.ok ⟨200, Except.ok (Json.obj
        [("status", Json.str "success"),
         ("result", Json.obj
           [("campaigns", Json.arr
             [Json.obj
               [("name", Json.str "Camp1"), ("status", Json.str "active"),
                ("always_on", Json.bool true), ("budget_type", Json.str "daily"),
                ("budget_amount", Json.str "100")]]),
            ("total", Json.num 1)])])⟩) =
      ⟨3, "Campaigns Report", Status.PASS,
        String.intercalate "\n"
          (("Found " ++ toString (1 : Int) ++ " campaign(s)") ::
           ["  • Camp1 | status=active | always_on=True | budget=daily/100"])⟩) :=
  ⟨(campaigns_zero_warn_otherwise_pass
      [("status", Json.str "success"),
       ("result", Json.obj [("campaigns", Json.arr []), ("total", Json.num 0)])]
      [("campaigns", Json.arr []), ("total", Json.num 0)] [] 0 []
      rfl rfl rfl rfl rfl).1 rfl,
   ((campaigns_zero_warn_otherwise_pass
      [("status", Json.str "success"),
       ("result", Json.obj
         [("campaigns", Json.arr
           [Json.obj
             [("name", Json.str "Camp1"), ("status", Json.str "active"),
              ("always_on", Json.bool true), ("budget_type", Json.str "daily"),
              ("budget_amount", Json.str "100")]]),
          ("total", Json.num 1)])]
      [("campaigns", Json.arr
         [Json.obj
           [("name", Json.str "Camp1"), ("status", Json.str "active"),
            ("always_on", Json.bool true), ("budget_type", Json.str "daily"),
            ("budget_amount", Json.str "100")]]),
       ("total", Json.num 1)]
      [Json.obj
         [("name", Json.str "Camp1"), ("status", Json.str "active"),
          ("always_on", Json.bool true), ("budget_type", Json.str "daily"),
          ("budget_amount", Json.str "100")]]
      1 ["  • Camp1 | status=active | always_on=True | budget=daily/100"]
      rfl rfl rfl rfl rfl).2.1 (by decide)).1⟩

/-- C9: every CLI classifier is a pure, deterministic function of the raw
transport outcome it is given: classifying equal raw responses yields equal
`CheckResult`s (and for Check 1, the same carried token), with no other state
influencing the outcome. -/
theorem classifiers_deterministic (o o2 : HttpOutcome) (h : o = o2) :
    KH.check_auth o = KH.check_auth o2 ∧
    KH.check_advertiser o = KH.check_advertiser o2 ∧
    KH.check_campaigns o = KH.check_campaigns o2 ∧
    KH.check_entity_failures o = KH.check_entity_failures o2 ∧
    KH.check_active_bidders o = KH.check_active_bidders o2 ∧
    KH.check_attributable_entities o = KH.check_attributable_entities o2 ∧
    ∀ c : String, KH.check_winning_ads c o = KH.check_winning_ads c o2 := by
  subst h
  exact ⟨rfl, rfl, rfl, rfl, rfl, rfl, fun c => rfl⟩

theorem classifiers_deterministic_witness :
    KH.check_auth HttpOutcome.timeout = KH.check_auth HttpOutcome.timeout ∧
    KH.check_advertiser HttpOutcome.timeout = KH.check_advertiser HttpOutcome.timeout ∧
    KH.check_campaigns HttpOutcome.timeout = KH.check_campaigns HttpOutcome.timeout ∧
    KH.check_entity_failures HttpOutcome.timeout =
      KH.check_entity_failures HttpOutcome.timeout ∧
    KH.check_active_bidders HttpOutcome.timeout =
      KH.check_active_bidders HttpOutcome.timeout ∧
    KH.check_attributable_entities HttpOutcome.timeout =
      KH.check_attributable_entities HttpOutcome.timeout ∧
    ∀ c : String,
      KH.check_winning_ads c HttpOutcome.timeout =
        KH.check_winning_ads c HttpOutcome.timeout :=
  classifiers_deterministic HttpOutcome.timeout HttpOutcome.timeout rfl

/-- C10 counterexample: with the same configuration and the same sequence of
HTTP responses (scenario C — login and advertiser succeed, the campaigns
report is a success envelope with zero campaigns, every later call times
out), the CLI and the web orchestrator do NOT produce identical result
lists: the statuses all agree, but Check 3's details differ by the CLI's
warning-emoji prefix. -/
theorem cli_web_results_not_identical_counterexample :
    (KH.run sampleConfig oracleCampaignsZero).results ≠
      (App.run_checks sampleConfig oracleCampaignsZero).1 ∧
    ((KH.run sampleConfig oracleCampaignsZero).results.map CheckResult.details).get? 2 =
      some "⚠️  Zero campaigns found for this advertiser" ∧
    ((App.run_checks sampleConfig oracleCampaignsZero).1.map CheckResult.details).get? 2 =
      some "Zero campaigns found for this advertiser" ∧
    (KH.run sampleConfig oracleCampaignsZero).results.map CheckResult.status =
      (App.run_checks sampleConfig oracleCampaignsZero).1.map CheckResult.status := by
  decide

/-- C10 (amended): for every identical configuration and identical sequence
of HTTP outcomes, the CLI orchestrator and the web orchestrator produce
result lists that agree pointwise in check number, name and status, and
whose details are identical except that the CLI prepends "⚠️  " to the WARN
details of checks 3–6 (the `WarnRel` correspondence). -/
theorem cli_web_results_agree (cfg : RunConfig) (oracle : Nat → HttpOutcome) :
    List.Forall₂ WarnRel (KH.run cfg oracle).results (App.run_checks cfg oracle).1 := by
  rcases htok : (KH.check_auth (oracle 0)).2 with _ | t
  · rw [KH.run_token_none cfg oracle htok, App.run_checks_token_none cfg oracle htok]
    refine List.Forall₂.cons (warnRel_refl _) (List.Forall₂.cons (warnRel_refl _)
      (List.Forall₂.cons (warnRel_refl _) (List.Forall₂.cons (warnRel_refl _)
      (List.Forall₂.cons (warnRel_refl _) (List.Forall₂.cons (warnRel_refl _)
      (List.Forall₂.cons ?_ List.Forall₂.nil))))))
    rw [app_check_winning_ads_eq]
    exact warnRel_refl _
  · by_cases hfail : (KH.check_advertiser (oracle 1)).status = Status.FAIL
    · rw [KH.run_adv_fail cfg oracle t htok hfail,
        App.run_checks_adv_fail cfg oracle t htok hfail]
      refine List.Forall₂.cons (warnRel_refl _) (List.Forall₂.cons ?_
        (List.Forall₂.cons (warnRel_refl _) (List.Forall₂.cons (warnRel_refl _)
        (List.Forall₂.cons (check_active_bidders_rel (oracle 2))
        (List.Forall₂.cons (check_attributable_entities_rel (oracle 3))
        (List.Forall₂.cons ?_ List.Forall₂.nil))))))
      · rw [app_check_advertiser_eq]
        exact warnRel_refl _
      · rw [app_check_winning_ads_eq]
        exact warnRel_refl _
    · rw [KH.run_adv_ok cfg oracle t htok hfail,
        App.run_checks_adv_ok cfg oracle t htok hfail]
      refine List.Forall₂.cons (warnRel_refl _) (List.Forall₂.cons ?_
        (List.Forall₂.cons (check_campaigns_rel (oracle 2))
        (List.Forall₂.cons (check_entity_failures_rel (oracle 3))
        (List.Forall₂.cons (check_active_bidders_rel (oracle 4))
        (List.Forall₂.cons (check_attributable_entities_rel (oracle 5))
        (List.Forall₂.cons ?_ List.Forall₂.nil))))))
      · rw [app_check_advertiser_eq]
        exact warnRel_refl _
      · rw [app_check_winning_ads_eq]
        exact warnRel_refl _

/-- C8 counterexample: on the scenario-C zero-campaign success response, the
CLI's Check 3 yields WARN whose details are the emoji-prefixed
"⚠️  Zero campaigns found for this advertiser", not the plain phrase
"Zero campaigns found for this advertiser" (which is what the web front end
produces). -/
theorem campaigns_warn_detail_emoji_counterexample :
    (KH.check_campaigns campaignsZero).status = Status.WARN ∧
    (KH.check_campaigns campaignsZero).details ≠
      "Zero campaigns found for this advertiser" ∧
    (KH.check_campaigns campaignsZero).details =
      "⚠️  Zero campaigns found for this advertiser" ∧
    App.check_campaigns campaignsZero =
      ⟨3, "Campaigns Report", Status.WARN,
        "Zero campaigns found for this advertiser"⟩ := by
  decide
